import Mathlib

/-
Verification development for the BinaryClock Arduino sketch
(src/BinaryClock.ino).

The sketch is a single-threaded fixed-tick control loop with three
time-tracking modes (time-of-day clock, stopwatch, countdown timer),
five level-sampled buttons turned into release events by per-button
latches, an LED bank (pins 22..38) and a character LCD.

Shallow embedding conventions:
  * C `int` fields and globals are modelled as `Int`; the 0/1 flag
    variables keep their integer type, and `== 1` / `== 0` tests are kept
    as written in the source.
  * C `%` truncates toward zero, so every `%=` of the source is modelled
    with `Int.tmod` (every operand that occurs in the program is
    nonnegative, where `Int.tmod` agrees with `Int.emod`).
  * `digitalRead` of a button pin is a `Bool` field of `Input`
    (`true` = HIGH); `digitalWrite` to an LED pin updates a total map
    `Nat → Bool` indexed by the pin number.
  * The LCD (`lcd.print`, `update_lcd`) and `Serial` are external
    peripherals per the spec; they receive no state in the model, so
    calls to them are dropped.  The unused global `f1Toggle` is omitted.
  * Each C function is split into one Lean definition per statement
    block, composed in source order, so state flows exactly as in the
    sketch's sequential code.
-/

set_option maxRecDepth 40000

/-- `const int TICKRATE = 8;` -/
def TICKRATE : Int := 8

/-- `struct timeStruct { int hours; int minutes; int seconds; int milliseconds; }` -/
structure timeStruct where
  hours : Int
  minutes : Int
  seconds : Int
  milliseconds : Int
deriving DecidableEq

/-- the zero-initialized `timeStruct` (all members are initialized to 0) -/
def timeZero : timeStruct := { hours := 0, minutes := 0, seconds := 0, milliseconds := 0 }

/-- `const int lowestPin = 22;` -/
def lowestPin : Nat := 22
/-- `const int highestPin = 38;` -/
def highestPin : Nat := 38
/-- `const int lowestSecPin = lowestPin;` -/
def lowestSecPin : Nat := lowestPin
/-- `const int lowestMinPin = lowestSecPin + 6;` -/
def lowestMinPin : Nat := lowestSecPin + 6
/-- `const int lowestHourPin = lowestMinPin + 6;` -/
def lowestHourPin : Nat := lowestMinPin + 6

/-- The raw button levels sampled during one iteration of `loop()`:
`digitalRead(pin) == HIGH` is `true`. -/
structure Input where
  toggleButton : Bool
  f1Button : Bool
  f2Button : Bool
  f3Button : Bool
  setButton : Bool
deriving DecidableEq

/-- all buttons read LOW -/
def noInput : Input :=
  { toggleButton := false, f1Button := false, f2Button := false, f3Button := false,
    setButton := false }

/-- The global mutable state of the sketch (every file-scope variable that
the control flow reads or writes, plus the LED output levels). -/
structure State where
  timeOfDay : timeStruct
  stopWatchTime : timeStruct
  timer : timeStruct
  modeNumber : Int
  toggleButtonRelease : Int
  f1ButtonRelease : Int
  f2ButtonRelease : Int
  f3ButtonRelease : Int
  setButtonRelease : Int
  increment : Int
  segment : Int
  isSettingTime : Int
  isStopwatchCounting : Int
  isTimerCounting : Int
  flash : Int
  leds : Nat → Bool

/-- startup state: all counters zero, Clock mode, no pending latches,
all LED outputs LOW -/
def initialState : State :=
  { timeOfDay := timeZero, stopWatchTime := timeZero, timer := timeZero,
    modeNumber := 0, toggleButtonRelease := 0, f1ButtonRelease := 0,
    f2ButtonRelease := 0, f3ButtonRelease := 0, setButtonRelease := 0,
    increment := 0, segment := 0, isSettingTime := 0,
    isStopwatchCounting := 0, isTimerCounting := 0, flash := 0,
    leds := fun _ => false }

/-- `digitalWrite(pin, v)` on the LED bank -/
def digitalWrite (leds : Nat → Bool) (pin : Nat) (v : Bool) : Nat → Bool :=
  fun p => if p = pin then v else leds p

/-- Arduino `bitRead(x, i)`, i.e. `(x >> i) & 0x01` on a C `int`:
arithmetic shift right is flooring division by `2 ^ i`, and `& 1`
extracts the two's-complement parity. -/
def bitRead (x : Int) (i : Nat) : Bool :=
  decide (Int.fdiv x (2 ^ i) % 2 = 1)

/- ----------------------------------------------------------------
count_time (src lines 168-192): advance a timeStruct by one tick.
---------------------------------------------------------------- -/

/-- `t.milliseconds += TICKRATE;` -/
def count_time_ms (t : timeStruct) : timeStruct :=
  { t with milliseconds := t.milliseconds + TICKRATE }

/-- `if (t.milliseconds == 1000) { t.seconds++; t.milliseconds = 0; }` -/
def count_time_sec (t : timeStruct) : timeStruct :=
  if t.milliseconds = 1000 then { t with seconds := t.seconds + 1, milliseconds := 0 } else t

/-- `if (t.seconds == 60) { t.minutes++; t.seconds = 0; }` -/
def count_time_min (t : timeStruct) : timeStruct :=
  if t.seconds = 60 then { t with minutes := t.minutes + 1, seconds := 0 } else t

/-- `if (t.minutes == 60) { t.hours++; t.minutes = 0; }` -/
def count_time_hour (t : timeStruct) : timeStruct :=
  if t.minutes = 60 then { t with hours := t.hours + 1, minutes := 0 } else t

/-- `t.hours %= 24;` -/
def count_time_wrap (t : timeStruct) : timeStruct :=
  { t with hours := Int.tmod t.hours 24 }

/-- `void count_time(timeStruct &t)` -/
def count_time (t : timeStruct) : timeStruct :=
  count_time_wrap (count_time_hour (count_time_min (count_time_sec (count_time_ms t))))

/-- `count_time` applied `n` times in sequence -/
def count_time_iter : Nat → timeStruct → timeStruct
  | 0, t => t
  | n + 1, t => count_time (count_time_iter n t)

/- ----------------------------------------------------------------
The countdown step of run_timer (src lines 386-400).
---------------------------------------------------------------- -/

/-- `timer.milliseconds -= TICKRATE - 2;` -/
def retreat_ms (t : timeStruct) : timeStruct :=
  { t with milliseconds := t.milliseconds - (TICKRATE - 2) }

/-- `if (timer.milliseconds < 0) { timer.seconds--; timer.milliseconds = 1000; }` -/
def retreat_borrow_sec (t : timeStruct) : timeStruct :=
  if t.milliseconds < 0 then { t with seconds := t.seconds - 1, milliseconds := 1000 } else t

/-- `if (timer.seconds == -1) { timer.minutes--; timer.seconds = 59; }` -/
def retreat_borrow_min (t : timeStruct) : timeStruct :=
  if t.seconds = -1 then { t with minutes := t.minutes - 1, seconds := 59 } else t

/-- `if (timer.minutes == -1) { timer.minutes--; timer.seconds = 59; }`
(src lines 397-400: the minute-underflow branch decrements `minutes`
again and re-assigns `seconds`; it touches neither `minutes = 59` nor
`hours`) -/
def retreat_borrow_hour (t : timeStruct) : timeStruct :=
  if t.minutes = -1 then { t with minutes := t.minutes - 1, seconds := 59 } else t

/-- the countdown decrement performed on `timer` inside `run_timer`
(src lines 387-400), the spec's `retreat` -/
def retreat (t : timeStruct) : timeStruct :=
  retreat_borrow_hour (retreat_borrow_min (retreat_borrow_sec (retreat_ms t)))

/- ----------------------------------------------------------------
led_display (src lines 413-436).
---------------------------------------------------------------- -/

/-- the first `for` loop of `led_display`: iteration `i` executes
`digitalWrite(lowestSecPin + i, bitRead(t.seconds, i));`
`digitalWrite(lowestMinPin + i, bitRead(t.minutes, i));`
with iterations for smaller `i` applied first -/
def led_display_sm (t : timeStruct) : Nat → (Nat → Bool) → Nat → Bool
  | 0, leds => leds
  | n + 1, leds =>
      digitalWrite
        (digitalWrite (led_display_sm t n leds) (lowestSecPin + n) (bitRead t.seconds n))
        (lowestMinPin + n) (bitRead t.minutes n)

/-- the second `for` loop of `led_display`: iteration `i` executes
`digitalWrite(lowestHourPin + i, bitRead(t.hours, i));` -/
def led_display_h (t : timeStruct) : Nat → (Nat → Bool) → Nat → Bool
  | 0, leds => leds
  | n + 1, leds =>
      digitalWrite (led_display_h t n leds) (lowestHourPin + n) (bitRead t.hours n)

/-- `void led_display(timeStruct &t)`: guarded by
`if (t.milliseconds == 0 || t.milliseconds == 1000)` -/
def led_display (t : timeStruct) (leds : Nat → Bool) : Nat → Bool :=
  if t.milliseconds = 0 ∨ t.milliseconds = 1000 then
    led_display_h t 5 (led_display_sm t 6 leds)
  else leds

/-- `for (thisPin = lowestPin; thisPin < lowestPin + n; thisPin++) digitalWrite(thisPin, v);`
unrolled from the low pin upward -/
def write_pins_from (p0 : Nat) : Nat → Bool → (Nat → Bool) → Nat → Bool
  | 0, _, leds => leds
  | n + 1, v, leds => digitalWrite (write_pins_from p0 n v leds) (p0 + n) v

/-- the `for (thisPin = lowestPin; thisPin <= highestPin; ...)` loops that
drive every LED pin to one level -/
def write_all_leds (v : Bool) (leds : Nat → Bool) : Nat → Bool :=
  write_pins_from lowestPin (highestPin - lowestPin + 1) v leds

/- ----------------------------------------------------------------
set_time (src lines 244-318).
---------------------------------------------------------------- -/

/-- the `switch (segment)` of the func2 branch: zero the unit at the cursor -/
def set_time_clear_unit (seg : Int) (t : timeStruct) : timeStruct :=
  if seg = 0 then { t with seconds := 0 }
  else if seg = 1 then { t with minutes := 0 }
  else if seg = 2 then { t with hours := 0 }
  else t

/-- the `switch (segment)` of the func1 branch: bump the unit at the cursor -/
def set_time_bump (seg : Int) (t : timeStruct) : timeStruct :=
  if seg = 0 then { t with seconds := t.seconds + 1 }
  else if seg = 1 then { t with minutes := t.minutes + 1 }
  else if seg = 2 then { t with hours := t.hours + 1 }
  else t

/-- `if (t.seconds > 60) { t.seconds %= 60; t.minutes++; }` -/
def set_time_carry_sec (t : timeStruct) : timeStruct :=
  if t.seconds > 60 then { t with seconds := Int.tmod t.seconds 60, minutes := t.minutes + 1 }
  else t

/-- `if (t.minutes > 60) { t.minutes %= 60; t.hours++; }` -/
def set_time_carry_min (t : timeStruct) : timeStruct :=
  if t.minutes > 60 then { t with minutes := Int.tmod t.minutes 60, hours := t.hours + 1 }
  else t

/-- `t.hours %= 24;` -/
def set_time_carry_hours (t : timeStruct) : timeStruct :=
  { t with hours := Int.tmod t.hours 24 }

/-- one auto-repeat increment during editing (src lines 291-306):
bump the unit at the cursor, then the overflow/carry checks -/
def set_time_increment (seg : Int) (t : timeStruct) : timeStruct :=
  set_time_carry_hours (set_time_carry_min (set_time_carry_sec (set_time_bump seg t)))

/-- func3 handling in `set_time` (src lines 250-259): cycle the segment on release -/
def set_time_f3 (inp : Input) (p : State × timeStruct) : State × timeStruct :=
  if inp.f3Button = true then ({ p.1 with f3ButtonRelease := 1 }, p.2)
  else if inp.f3Button = false ∧ p.1.f3ButtonRelease = 1 then
    ({ p.1 with segment := Int.tmod (p.1.segment + 1) 3, f3ButtonRelease := 0 }, p.2)
  else p

/-- func2 handling in `set_time` (src lines 263-276): clear the unit at the
cursor on release, then refresh the LEDs with the cleared value -/
def set_time_f2 (inp : Input) (p : State × timeStruct) : State × timeStruct :=
  if inp.f2Button = true then ({ p.1 with f2ButtonRelease := 1 }, p.2)
  else if inp.f2Button = false ∧ p.1.f2ButtonRelease = 1 then
    ({ p.1 with f2ButtonRelease := 0,
                leds := led_display (set_time_clear_unit p.1.segment p.2) p.1.leds },
     set_time_clear_unit p.1.segment p.2)
  else p

/-- func1 handling in `set_time` (src lines 280-316): while held, refresh the
display, latch the release tracker, apply one increment whenever
`increment % 152 == 0`, then advance `increment` by `TICKRATE` modulo 1000;
on release, reset `increment` and the latch -/
def set_time_f1 (inp : Input) (p : State × timeStruct) : State × timeStruct :=
  if inp.f1Button = true then
    ({ p.1 with leds := led_display p.2 p.1.leds,
                f1ButtonRelease := 1,
                increment := Int.tmod (p.1.increment + TICKRATE) 1000 },
     if Int.tmod p.1.increment 152 = 0 then set_time_increment p.1.segment p.2 else p.2)
  else if inp.f1Button = false ∧ p.1.f1ButtonRelease = 1 then
    ({ p.1 with increment := 0, f1ButtonRelease := 0 }, p.2)
  else p

/-- `void set_time(timeStruct &t)`: zero the milliseconds first
(src line 247), then the three button blocks in source order -/
def set_time (inp : Input) (s : State) (t : timeStruct) : State × timeStruct :=
  set_time_f1 inp (set_time_f2 inp (set_time_f3 inp (s, { t with milliseconds := 0 })))

/- ----------------------------------------------------------------
run_stopwatch (src lines 200-235).
---------------------------------------------------------------- -/

/-- func1 handling in `run_stopwatch` (src lines 204-210): toggle
`isStopwatchCounting` on release -/
def stopwatch_f1 (inp : Input) (s : State) : State :=
  if inp.f1Button = true then { s with f1ButtonRelease := 1 }
  else if inp.f1Button = false ∧ s.f1ButtonRelease = 1 then
    { s with isStopwatchCounting := if s.isStopwatchCounting = 0 then 1 else 0,
             f1ButtonRelease := 0 }
  else s

/-- func2 handling in `run_stopwatch` (src lines 213-224): clear the
stopwatch, stop it, reset the latch, refresh the LEDs -/
def stopwatch_f2 (inp : Input) (s : State) : State :=
  if inp.f2Button = true then { s with f2ButtonRelease := 1 }
  else if inp.f2Button = false ∧ s.f2ButtonRelease = 1 then
    { s with stopWatchTime := timeZero, isStopwatchCounting := 0, f2ButtonRelease := 0,
             leds := led_display timeZero s.leds }
  else s

/-- src lines 227-231: `if (isStopwatchCounting == 1) { count_time(...); led_display(...); }` -/
def stopwatch_count (s : State) : State :=
  if s.isStopwatchCounting = 1 then
    { s with stopWatchTime := count_time s.stopWatchTime,
             leds := led_display (count_time s.stopWatchTime) s.leds }
  else s

/-- `void run_stopwatch()` (the trailing `update_lcd` is an external
peripheral write) -/
def run_stopwatch (inp : Input) (s : State) : State :=
  stopwatch_count (stopwatch_f2 inp (stopwatch_f1 inp s))

/- ----------------------------------------------------------------
run_timer (src lines 328-406).
---------------------------------------------------------------- -/

/-- func1 handling in `run_timer` (src lines 335-341): toggle
`isTimerCounting` on release -/
def timer_f1 (inp : Input) (s : State) : State :=
  if inp.f1Button = true then { s with f1ButtonRelease := 1 }
  else if inp.f1Button = false ∧ s.f1ButtonRelease = 1 then
    { s with isTimerCounting := if s.isTimerCounting = 0 then 1 else 0,
             f1ButtonRelease := 0 }
  else s

/-- func2 handling in `run_timer` (src lines 344-354): zero the timer and
stop it; NOTE the source resets `f1ButtonRelease = 0` here, not
`f2ButtonRelease` -/
def timer_f2 (inp : Input) (s : State) : State :=
  if inp.f2Button = true then { s with f2ButtonRelease := 1 }
  else if inp.f2Button = false ∧ s.f2ButtonRelease = 1 then
    { s with timer := timeZero, isTimerCounting := 0, f1ButtonRelease := 0 }
  else s

/-- src lines 332-356: the two button blocks run only `if (isSettingTime == 0)` -/
def timer_buttons (inp : Input) (s : State) : State :=
  if s.isSettingTime = 0 then timer_f2 inp (timer_f1 inp s) else s

/-- src lines 359-404: route to `set_time(timer)` while setting; otherwise
flash all LEDs when the timer has reached zero; otherwise count down while
`isTimerCounting` (the `update_lcd` calls are external) -/
def timer_body (inp : Input) (s : State) : State :=
  if s.isSettingTime ≠ 0 then
    { (set_time inp s s.timer).1 with timer := (set_time inp s s.timer).2 }
  else if s.timer.hours + s.timer.seconds + s.timer.milliseconds + s.timer.minutes = 0 then
    if Int.tmod (s.flash + 1) 80 = 0 then
      { s with flash := Int.tmod (s.flash + 1) 80, leds := write_all_leds true s.leds }
    else if Int.tmod (s.flash + 1) 80 = 40 then
      { s with flash := Int.tmod (s.flash + 1) 80, leds := write_all_leds false s.leds }
    else { s with flash := Int.tmod (s.flash + 1) 80 }
  else if s.isTimerCounting ≠ 0 then
    { s with leds := led_display s.timer s.leds, timer := retreat s.timer }
  else s

/-- `void run_timer()` -/
def run_timer (inp : Input) (s : State) : State :=
  timer_body inp (timer_buttons inp s)

/- ----------------------------------------------------------------
loop (src lines 483-598).
---------------------------------------------------------------- -/

/-- the body that runs when the set-button release fires (src lines 491-536):
enter setting mode when `isSettingTime == 0 && modeNumber != 1` (clearing
LEDs and the timer when in Timer mode), otherwise leave setting mode and
reset `increment` and `segment`; finally clear the latch -/
def enter_exit_setting (s : State) : State :=
  if s.isSettingTime = 0 ∧ s.modeNumber ≠ 1 then
    if s.modeNumber = 2 then
      { s with isSettingTime := 1, leds := write_all_leds false s.leds,
               timer := timeZero, isTimerCounting := 0, setButtonRelease := 0 }
    else { s with isSettingTime := 1, setButtonRelease := 0 }
  else { s with isSettingTime := 0, increment := 0, segment := 0, setButtonRelease := 0 }

/-- src lines 489-536: the set-button latch -/
def handle_set_button (inp : Input) (s : State) : State :=
  if inp.setButton = true then { s with setButtonRelease := 1 }
  else if inp.setButton = false ∧ s.setButtonRelease = 1 then enter_exit_setting s
  else s

/-- src lines 541-542:
`if (isSettingTime != 1 || modeNumber != 0) count_time(timeOfDay); else set_time(timeOfDay);` -/
def tick_time_of_day (inp : Input) (s : State) : State :=
  if s.isSettingTime ≠ 1 ∨ s.modeNumber ≠ 0 then
    { s with timeOfDay := count_time s.timeOfDay }
  else
    { (set_time inp s s.timeOfDay).1 with timeOfDay := (set_time inp s s.timeOfDay).2 }

/-- src lines 548-577: the mode-toggle latch; on release, advance the mode
modulo 3, clear all LEDs, leave setting mode, clear the latch and `flash` -/
def mode_toggle (inp : Input) (s : State) : State :=
  if inp.toggleButton = true then { s with toggleButtonRelease := 1 }
  else if inp.toggleButton = false ∧ s.toggleButtonRelease = 1 then
    { s with modeNumber := Int.tmod (s.modeNumber + 1) 3,
             leds := write_all_leds false s.leds,
             isSettingTime := 0, toggleButtonRelease := 0, flash := 0 }
  else s

/-- src lines 580-588: `switch (modeNumber)` -/
def mode_dispatch (inp : Input) (s : State) : State :=
  if s.modeNumber = 0 then { s with leds := led_display s.timeOfDay s.leds }
  else if s.modeNumber = 1 then run_stopwatch inp s
  else if s.modeNumber = 2 then run_timer inp s
  else s

/-- one complete iteration of `void loop()` (the trailing
`delayMicroseconds` timing adjustment has no effect on the modelled state) -/
def loop (inp : Input) (s : State) : State :=
  mode_dispatch inp (mode_toggle inp (tick_time_of_day inp (handle_set_button inp s)))

/-- run the main loop over a finite sequence of sampled inputs -/
def run (s : State) : List Input → State
  | [] => s
  | inp :: rest => run (loop inp s) rest

/-- a tick on which only the mode-toggle button reads HIGH -/
def togglePress : Input := { noInput with toggleButton := true }
/-- a tick on which only the func1 (start/stop) button reads HIGH -/
def f1Press : Input := { noInput with f1Button := true }
/-- a tick on which only the set-time button reads HIGH -/
def setPress : Input := { noInput with setButton := true }

/-- a Timer-mode state with the func2 release latch set and the countdown
running at 00:00:05:000, as reached right after func2 is pressed while the
timer counts down -/
def timerPendingClear : State :=
  { initialState with
      modeNumber := 2
      f2ButtonRelease := 1
      isTimerCounting := 1
      timer := { hours := 0, minutes := 0, seconds := 5, milliseconds := 0 } }

/-- a Clock-mode state with a pending mode-toggle release and the stopwatch
running, as reached right after the toggle button is pressed while the
stopwatch counts -/
def clockPendingToggle : State :=
  { initialState with toggleButtonRelease := 1, isStopwatchCounting := 1 }

/- ----------------------------------------------------------------
Invariant vocabulary.
---------------------------------------------------------------- -/

/-- the hours field is a valid 24-hour value -/
def hoursInv (t : timeStruct) : Prop := 0 ≤ t.hours ∧ t.hours < 24

/-- the full normalization invariant of the spec, together with the fact
that the subsecond counter is a whole number of 8 ms ticks -/
def timeInv (t : timeStruct) : Prop :=
  0 ≤ t.hours ∧ t.hours < 24 ∧ 0 ≤ t.minutes ∧ t.minutes < 60 ∧
  0 ≤ t.seconds ∧ t.seconds < 60 ∧ 0 ≤ t.milliseconds ∧ t.milliseconds < 1000 ∧
  Int.tmod t.milliseconds 8 = 0

instance (t : timeStruct) : Decidable (hoursInv t) := by unfold hoursInv; infer_instance

instance (t : timeStruct) : Decidable (timeInv t) := by unfold timeInv; infer_instance

/- ----------------------------------------------------------------
Arithmetic and LED-bank helper lemmas.
---------------------------------------------------------------- -/

theorem tmod_bounds (a b : Int) (ha : 0 ≤ a) (hb : 0 < b) :
    0 ≤ Int.tmod a b ∧ Int.tmod a b < b :=
  ⟨Int.tmod_nonneg b ha, Int.tmod_lt_of_pos a hb⟩

theorem write_pins_from_in (p0 n : Nat) (v : Bool) (leds : Nat → Bool) (p : Nat)
    (h1 : p0 ≤ p) (h2 : p < p0 + n) : write_pins_from p0 n v leds p = v := by
  induction n with
  | zero => omega
  | succ n ih =>
      rw [write_pins_from, digitalWrite]
      by_cases h : p = p0 + n
      · simp [h]
      · rw [if_neg h]
        exact ih (by omega)

theorem write_pins_from_out (p0 n : Nat) (v : Bool) (leds : Nat → Bool) (p : Nat)
    (h : p < p0 ∨ p0 + n ≤ p) : write_pins_from p0 n v leds p = leds p := by
  induction n with
  | zero => rfl
  | succ n ih =>
      rw [write_pins_from, digitalWrite, if_neg (by omega)]
      exact ih (by omega)

theorem write_all_leds_in (v : Bool) (leds : Nat → Bool) (p : Nat)
    (h1 : lowestPin ≤ p) (h2 : p ≤ highestPin) : write_all_leds v leds p = v := by
  revert h1 h2
  unfold write_all_leds lowestPin highestPin
  intro h1 h2
  exact write_pins_from_in _ _ _ _ _ h1 (by omega)

theorem write_all_leds_out (v : Bool) (leds : Nat → Bool) (p : Nat)
    (h : p < lowestPin ∨ highestPin < p) : write_all_leds v leds p = leds p := by
  revert h
  unfold write_all_leds lowestPin highestPin
  intro h
  exact write_pins_from_out _ _ _ _ _ (by omega)

theorem led_display_sm_sec (t : timeStruct) (n : Nat) (hn : n ≤ 6) (leds : Nat → Bool)
    (i : Nat) (hi : i < n) :
    led_display_sm t n leds (lowestSecPin + i) = bitRead t.seconds i := by
  induction n with
  | zero => omega
  | succ n ih =>
      rw [led_display_sm, digitalWrite, digitalWrite,
        if_neg (by simp only [lowestSecPin, lowestMinPin, lowestPin]; omega)]
      by_cases h : i = n
      · subst h; rw [if_pos rfl]
      · rw [if_neg (by simp only [lowestSecPin, lowestPin]; omega)]
        exact ih (by omega) (by omega)

theorem led_display_sm_min (t : timeStruct) (n : Nat) (hn : n ≤ 6) (leds : Nat → Bool)
    (i : Nat) (hi : i < n) :
    led_display_sm t n leds (lowestMinPin + i) = bitRead t.minutes i := by
  induction n with
  | zero => omega
  | succ n ih =>
      rw [led_display_sm, digitalWrite, digitalWrite]
      by_cases h : i = n
      · subst h; rw [if_pos rfl]
      · rw [if_neg (by simp only [lowestMinPin, lowestSecPin, lowestPin]; omega),
          if_neg (by simp only [lowestMinPin, lowestSecPin, lowestPin]; omega)]
        exact ih (by omega) (by omega)

theorem led_display_sm_frame (t : timeStruct) (n : Nat) (hn : n ≤ 6) (leds : Nat → Bool)
    (p : Nat) (h : p < lowestSecPin ∨ lowestMinPin + 6 ≤ p) :
    led_display_sm t n leds p = leds p := by
  induction n with
  | zero => rfl
  | succ n ih =>
      rw [led_display_sm, digitalWrite, digitalWrite,
        if_neg (by revert h; simp only [lowestMinPin, lowestSecPin, lowestPin]; omega),
        if_neg (by revert h; simp only [lowestMinPin, lowestSecPin, lowestPin]; omega)]
      exact ih (by omega)

theorem led_display_h_val (t : timeStruct) (n : Nat) (hn : n ≤ 5) (leds : Nat → Bool)
    (i : Nat) (hi : i < n) :
    led_display_h t n leds (lowestHourPin + i) = bitRead t.hours i := by
  induction n with
  | zero => omega
  | succ n ih =>
      rw [led_display_h, digitalWrite]
      by_cases h : i = n
      · subst h; rw [if_pos rfl]
      · rw [if_neg (by simp only [lowestHourPin, lowestMinPin, lowestSecPin, lowestPin]; omega)]
        exact ih (by omega) (by omega)

theorem led_display_h_frame (t : timeStruct) (n : Nat) (hn : n ≤ 5) (leds : Nat → Bool)
    (p : Nat) (h : p < lowestHourPin ∨ lowestHourPin + n ≤ p) :
    led_display_h t n leds p = leds p := by
  induction n with
  | zero => rfl
  | succ n ih =>
      have hne : ¬p = lowestHourPin + n := by
        revert h
        simp only [lowestHourPin, lowestMinPin, lowestSecPin, lowestPin]
        omega
      rw [led_display_h, digitalWrite, if_neg hne]
      exact ih (by omega) (by omega)

theorem bitRead_eq_testBit (x : Int) (hx : 0 ≤ x) (i : Nat) :
    bitRead x i = Nat.testBit x.toNat i := by
  obtain ⟨n, rfl⟩ := Int.eq_ofNat_of_zero_le hx
  rw [bitRead, Nat.testBit_to_div_mod, decide_eq_decide, Int.toNat_ofNat]
  rw [show ((2 : Int) ^ i) = ((2 ^ i : Nat) : Int) by push_cast; ring]
  rw [Int.fdiv_eq_ediv _ (by positivity)]
  rw [← Int.ofNat_ediv, show (2 : Int) = ((2 : Nat) : Int) from rfl, ← Int.ofNat_emod]
  norm_cast

/- ----------------------------------------------------------------
set_time structural lemmas.
---------------------------------------------------------------- -/

theorem set_time_f3_snd (inp : Input) (p : State × timeStruct) :
    (set_time_f3 inp p).2 = p.2 := by
  unfold set_time_f3
  repeat' split
  all_goals rfl

theorem set_time_clear_unit_ms (seg : Int) (t : timeStruct) :
    (set_time_clear_unit seg t).milliseconds = t.milliseconds := by
  unfold set_time_clear_unit
  repeat' split
  all_goals rfl

theorem set_time_increment_ms (seg : Int) (t : timeStruct) :
    (set_time_increment seg t).milliseconds = t.milliseconds := by
  unfold set_time_increment set_time_carry_hours set_time_carry_min set_time_carry_sec
    set_time_bump
  repeat' split
  all_goals rfl

theorem set_time_f2_snd_ms (inp : Input) (p : State × timeStruct) :
    (set_time_f2 inp p).2.milliseconds = p.2.milliseconds := by
  unfold set_time_f2
  repeat' split
  · rfl
  · rw [set_time_clear_unit_ms]
  · rfl

theorem set_time_f1_snd_ms (inp : Input) (p : State × timeStruct) :
    (set_time_f1 inp p).2.milliseconds = p.2.milliseconds := by
  unfold set_time_f1
  repeat' split
  · rw [set_time_increment_ms]
  · rfl
  · rfl
  · rfl

/-- C10: on every tick spent in the editing sub-state, `set_time` first zeroes
the milliseconds of the Time Value under edit, and none of the button-handling
paths writes that field again, so the edited Time Value leaves `set_time` with
`milliseconds = 0` no matter which buttons are pressed or latched. -/
theorem c10_set_time_zeroes_subseconds (inp : Input) (s : State) (t : timeStruct) :
    (set_time inp s t).2.milliseconds = 0 := by
  unfold set_time
  rw [set_time_f1_snd_ms, set_time_f2_snd_ms, set_time_f3_snd]

/- ----------------------------------------------------------------
C2: the countdown borrow cascade.
---------------------------------------------------------------- -/

/-- C2 counterexample: on the countdown value 01:00:00:000 (one hour), the
minute-underflow branch leaves `hours = 1` untouched and drives `minutes`
to −2; the claimed result — minutes set to 59 with one hour borrowed,
i.e. 00:59:59:1000 — is not what the code computes. -/
theorem c2_counterexample :
    retreat { hours := 1, minutes := 0, seconds := 0, milliseconds := 0 } =
      { hours := 1, minutes := -2, seconds := 59, milliseconds := 1000 } ∧
    retreat { hours := 1, minutes := 0, seconds := 0, milliseconds := 0 } ≠
      { hours := 0, minutes := 59, seconds := 59, milliseconds := 1000 } := by
  decide

/-- C2 (amended): for a countdown value with nonnegative fields, one
countdown step subtracts `TICKRATE − 2 = 6` ms; if subseconds go negative,
seconds is decremented and subseconds set to 1000; if seconds reaches −1, one
minute is borrowed and seconds is set to 59; but when minutes reaches −1 the
code does not apply the symmetric rule: it decrements minutes a second time
(leaving −2) and re-assigns seconds := 59, and hours is never decremented. -/
theorem retreat_ms_eval (t : timeStruct) :
    retreat_ms t = { t with milliseconds := t.milliseconds - 6 } := by
  unfold retreat_ms TICKRATE
  norm_num

theorem retreat_borrow_sec_pos (t : timeStruct) (h : t.milliseconds < 0) :
    retreat_borrow_sec t = { t with seconds := t.seconds - 1, milliseconds := 1000 } := by
  unfold retreat_borrow_sec
  rw [if_pos h]

theorem retreat_borrow_sec_neg (t : timeStruct) (h : ¬t.milliseconds < 0) :
    retreat_borrow_sec t = t := by
  unfold retreat_borrow_sec
  rw [if_neg h]

theorem retreat_borrow_min_pos (t : timeStruct) (h : t.seconds = -1) :
    retreat_borrow_min t = { t with minutes := t.minutes - 1, seconds := 59 } := by
  unfold retreat_borrow_min
  rw [if_pos h]

theorem retreat_borrow_min_neg (t : timeStruct) (h : ¬t.seconds = -1) :
    retreat_borrow_min t = t := by
  unfold retreat_borrow_min
  rw [if_neg h]

theorem retreat_borrow_hour_pos (t : timeStruct) (h : t.minutes = -1) :
    retreat_borrow_hour t = { t with minutes := t.minutes - 1, seconds := 59 } := by
  unfold retreat_borrow_hour
  rw [if_pos h]

theorem retreat_borrow_hour_neg (t : timeStruct) (h : ¬t.minutes = -1) :
    retreat_borrow_hour t = t := by
  unfold retreat_borrow_hour
  rw [if_neg h]

theorem c2_retreat_borrow (t : timeStruct) (hms : 0 ≤ t.milliseconds)
    (hs : 0 ≤ t.seconds) (hm : 0 ≤ t.minutes) :
    (6 ≤ t.milliseconds →
      retreat t = { t with milliseconds := t.milliseconds - 6 }) ∧
    (t.milliseconds < 6 → 1 ≤ t.seconds →
      retreat t = { t with milliseconds := 1000, seconds := t.seconds - 1 }) ∧
    (t.milliseconds < 6 → t.seconds = 0 → 1 ≤ t.minutes →
      retreat t = { t with milliseconds := 1000, seconds := 59, minutes := t.minutes - 1 }) ∧
    (t.milliseconds < 6 → t.seconds = 0 → t.minutes = 0 →
      retreat t = { t with milliseconds := 1000, seconds := 59, minutes := -2 }) := by
  refine ⟨?_, ?_, ?_, ?_⟩
  · intro h1
    unfold retreat
    have e2 : retreat_borrow_sec { t with milliseconds := t.milliseconds - 6 } =
        { t with milliseconds := t.milliseconds - 6 } :=
      retreat_borrow_sec_neg _ (show ¬t.milliseconds - 6 < 0 by omega)
    have e3 : retreat_borrow_min { t with milliseconds := t.milliseconds - 6 } =
        { t with milliseconds := t.milliseconds - 6 } :=
      retreat_borrow_min_neg _ (show ¬t.seconds = -1 by omega)
    have e4 : retreat_borrow_hour { t with milliseconds := t.milliseconds - 6 } =
        { t with milliseconds := t.milliseconds - 6 } :=
      retreat_borrow_hour_neg _ (show ¬t.minutes = -1 by omega)
    rw [retreat_ms_eval, e2, e3, e4]
  · intro h1 h2
    unfold retreat
    have e2 : retreat_borrow_sec { t with milliseconds := t.milliseconds - 6 } =
        { t with seconds := t.seconds - 1, milliseconds := 1000 } :=
      retreat_borrow_sec_pos _ (show t.milliseconds - 6 < 0 by omega)
    have e3 : retreat_borrow_min { t with seconds := t.seconds - 1, milliseconds := 1000 } =
        { t with seconds := t.seconds - 1, milliseconds := 1000 } :=
      retreat_borrow_min_neg _ (show ¬t.seconds - 1 = -1 by omega)
    have e4 : retreat_borrow_hour { t with seconds := t.seconds - 1, milliseconds := 1000 } =
        { t with seconds := t.seconds - 1, milliseconds := 1000 } :=
      retreat_borrow_hour_neg _ (show ¬t.minutes = -1 by omega)
    rw [retreat_ms_eval, e2, e3, e4]
  · intro h1 h2 h3
    unfold retreat
    have e2 : retreat_borrow_sec { t with milliseconds := t.milliseconds - 6 } =
        { t with seconds := t.seconds - 1, milliseconds := 1000 } :=
      retreat_borrow_sec_pos _ (show t.milliseconds - 6 < 0 by omega)
    have e3 : retreat_borrow_min { t with seconds := t.seconds - 1, milliseconds := 1000 } =
        { t with minutes := t.minutes - 1, seconds := 59, milliseconds := 1000 } :=
      retreat_borrow_min_pos _ (show t.seconds - 1 = -1 by omega)
    have e4 : retreat_borrow_hour
        { t with minutes := t.minutes - 1, seconds := 59, milliseconds := 1000 } =
        { t with minutes := t.minutes - 1, seconds := 59, milliseconds := 1000 } :=
      retreat_borrow_hour_neg _ (show ¬t.minutes - 1 = -1 by omega)
    rw [retreat_ms_eval, e2, e3, e4]
  · intro h1 h2 h3
    unfold retreat
    have e2 : retreat_borrow_sec { t with milliseconds := t.milliseconds - 6 } =
        { t with seconds := t.seconds - 1, milliseconds := 1000 } :=
      retreat_borrow_sec_pos _ (show t.milliseconds - 6 < 0 by omega)
    have e3 : retreat_borrow_min { t with seconds := t.seconds - 1, milliseconds := 1000 } =
        { t with minutes := t.minutes - 1, seconds := 59, milliseconds := 1000 } :=
      retreat_borrow_min_pos _ (show t.seconds - 1 = -1 by omega)
    have e4 : retreat_borrow_hour
        { t with minutes := t.minutes - 1, seconds := 59, milliseconds := 1000 } =
        { t with minutes := t.minutes - 1 - 1, seconds := 59, milliseconds := 1000 } :=
      retreat_borrow_hour_pos _ (show t.minutes - 1 = -1 by omega)
    rw [retreat_ms_eval, e2, e3, e4, h3]
    norm_num

/-- C2 witness: the amended borrow rules applied at the concrete countdown
value 05:00:00:000. -/
theorem c2_retreat_borrow_witness :
    retreat { hours := 5, minutes := 0, seconds := 0, milliseconds := 0 } =
      { hours := 5, minutes := -2, seconds := 59, milliseconds := 1000 } :=
  (c2_retreat_borrow { hours := 5, minutes := 0, seconds := 0, milliseconds := 0 }
    (by decide) (by decide) (by decide)).2.2.2 (by decide) (by decide) (by decide)

/- ----------------------------------------------------------------
C6: the editing increment and its carry rules.
---------------------------------------------------------------- -/

theorem set_time_bump_sec (t : timeStruct) :
    set_time_bump 0 t = { t with seconds := t.seconds + 1 } := by
  unfold set_time_bump
  rw [if_pos rfl]

theorem set_time_bump_min (t : timeStruct) :
    set_time_bump 1 t = { t with minutes := t.minutes + 1 } := by
  unfold set_time_bump
  norm_num

theorem set_time_bump_hour (t : timeStruct) :
    set_time_bump 2 t = { t with hours := t.hours + 1 } := by
  unfold set_time_bump
  norm_num

theorem set_time_carry_sec_pos (t : timeStruct) (h : t.seconds > 60) :
    set_time_carry_sec t =
      { t with seconds := Int.tmod t.seconds 60, minutes := t.minutes + 1 } := by
  unfold set_time_carry_sec
  rw [if_pos h]

theorem set_time_carry_sec_neg (t : timeStruct) (h : ¬t.seconds > 60) :
    set_time_carry_sec t = t := by
  unfold set_time_carry_sec
  rw [if_neg h]

theorem set_time_carry_min_pos (t : timeStruct) (h : t.minutes > 60) :
    set_time_carry_min t =
      { t with minutes := Int.tmod t.minutes 60, hours := t.hours + 1 } := by
  unfold set_time_carry_min
  rw [if_pos h]

theorem set_time_carry_min_neg (t : timeStruct) (h : ¬t.minutes > 60) :
    set_time_carry_min t = t := by
  unfold set_time_carry_min
  rw [if_neg h]

theorem set_time_carry_hours_eval (t : timeStruct) :
    set_time_carry_hours t = { t with hours := Int.tmod t.hours 24 } := rfl

/-- C6 counterexample: during editing with the cursor on seconds and the
edited value at 00:00:59, one auto-repeat increment leaves seconds at 60
with minutes unchanged — the increment only carries above 60, so the
claimed post-state (seconds wrapped to 0, minutes incremented to 1)
does not occur. -/
theorem c6_counterexample :
    (set_time f1Press { initialState with isSettingTime := 1 }
        { hours := 0, minutes := 0, seconds := 59, milliseconds := 0 }).2 =
      { hours := 0, minutes := 0, seconds := 60, milliseconds := 0 } ∧
    (set_time f1Press { initialState with isSettingTime := 1 }
        { hours := 0, minutes := 0, seconds := 59, milliseconds := 0 }).2 ≠
      { hours := 0, minutes := 1, seconds := 0, milliseconds := 0 } := by
  decide

/-- C6 (amended): an auto-repeat increment of the unit at the edit cursor
carries only when the incremented unit exceeds 60: incrementing seconds (or
minutes) at 59 leaves the unit at the out-of-range value 60 with no carry;
on the next increment the unit reaches 61 and only then wraps — via
`%= 60` — to 1 (not 0), incrementing the next unit once; hours is always
reduced modulo 24. -/
theorem c6_edit_increment_carry (h m s : Int) (hh : 0 ≤ h ∧ h < 24)
    (hm : 0 ≤ m ∧ m ≤ 60) (hs : 0 ≤ s ∧ s ≤ 60) :
    (s < 60 → set_time_increment 0 ⟨h, m, s, 0⟩ = ⟨h, m, s + 1, 0⟩) ∧
    (s = 60 → m < 60 → set_time_increment 0 ⟨h, m, s, 0⟩ = ⟨h, m + 1, 1, 0⟩) ∧
    (s = 60 → m = 60 → set_time_increment 0 ⟨h, m, s, 0⟩ = ⟨Int.tmod (h + 1) 24, 1, 1, 0⟩) ∧
    (m < 60 → set_time_increment 1 ⟨h, m, s, 0⟩ = ⟨h, m + 1, s, 0⟩) ∧
    (m = 60 → set_time_increment 1 ⟨h, m, s, 0⟩ = ⟨Int.tmod (h + 1) 24, 1, s, 0⟩) ∧
    (set_time_increment 2 ⟨h, m, s, 0⟩ = ⟨Int.tmod (h + 1) 24, m, s, 0⟩) := by
  have t6160 : Int.tmod 61 60 = 1 := by decide
  refine ⟨?_, ?_, ?_, ?_, ?_, ?_⟩
  · intro hlt
    unfold set_time_increment
    have e1 : set_time_bump 0 ⟨h, m, s, 0⟩ = (⟨h, m, s + 1, 0⟩ : timeStruct) :=
      set_time_bump_sec _
    have e2 : set_time_carry_sec ⟨h, m, s + 1, 0⟩ = (⟨h, m, s + 1, 0⟩ : timeStruct) :=
      set_time_carry_sec_neg _ (show ¬s + 1 > 60 by omega)
    have e3 : set_time_carry_min ⟨h, m, s + 1, 0⟩ = (⟨h, m, s + 1, 0⟩ : timeStruct) :=
      set_time_carry_min_neg _ (show ¬m > 60 by omega)
    have e4 : set_time_carry_hours ⟨h, m, s + 1, 0⟩ =
        (⟨Int.tmod h 24, m, s + 1, 0⟩ : timeStruct) := set_time_carry_hours_eval _
    rw [e1, e2, e3, e4, Int.tmod_eq_of_lt hh.1 hh.2]
  · intro hseq hmlt
    subst hseq
    unfold set_time_increment
    have e1 : set_time_bump 0 ⟨h, m, 60, 0⟩ = (⟨h, m, 61, 0⟩ : timeStruct) :=
      set_time_bump_sec _
    have e2 : set_time_carry_sec ⟨h, m, 61, 0⟩ =
        (⟨h, m + 1, Int.tmod 61 60, 0⟩ : timeStruct) :=
      set_time_carry_sec_pos _ (show (61 : Int) > 60 by norm_num)
    have e3 : set_time_carry_min ⟨h, m + 1, Int.tmod 61 60, 0⟩ =
        (⟨h, m + 1, Int.tmod 61 60, 0⟩ : timeStruct) :=
      set_time_carry_min_neg _ (show ¬m + 1 > 60 by omega)
    have e4 : set_time_carry_hours ⟨h, m + 1, Int.tmod 61 60, 0⟩ =
        (⟨Int.tmod h 24, m + 1, Int.tmod 61 60, 0⟩ : timeStruct) :=
      set_time_carry_hours_eval _
    rw [e1, e2, e3, e4, t6160, Int.tmod_eq_of_lt hh.1 hh.2]
  · intro hseq hmeq
    subst hseq
    subst hmeq
    unfold set_time_increment
    have e1 : set_time_bump 0 ⟨h, 60, 60, 0⟩ = (⟨h, 60, 61, 0⟩ : timeStruct) :=
      set_time_bump_sec _
    have e2 : set_time_carry_sec ⟨h, 60, 61, 0⟩ =
        (⟨h, 61, Int.tmod 61 60, 0⟩ : timeStruct) :=
      set_time_carry_sec_pos _ (show (61 : Int) > 60 by norm_num)
    have e3 : set_time_carry_min ⟨h, 61, Int.tmod 61 60, 0⟩ =
        (⟨h + 1, Int.tmod 61 60, Int.tmod 61 60, 0⟩ : timeStruct) :=
      set_time_carry_min_pos _ (show (61 : Int) > 60 by norm_num)
    have e4 : set_time_carry_hours ⟨h + 1, Int.tmod 61 60, Int.tmod 61 60, 0⟩ =
        (⟨Int.tmod (h + 1) 24, Int.tmod 61 60, Int.tmod 61 60, 0⟩ : timeStruct) :=
      set_time_carry_hours_eval _
    rw [e1, e2, e3, e4, t6160]
  · intro hmlt
    unfold set_time_increment
    have e1 : set_time_bump 1 ⟨h, m, s, 0⟩ = (⟨h, m + 1, s, 0⟩ : timeStruct) :=
      set_time_bump_min _
    have e2 : set_time_carry_sec ⟨h, m + 1, s, 0⟩ = (⟨h, m + 1, s, 0⟩ : timeStruct) :=
      set_time_carry_sec_neg _ (show ¬s > 60 by omega)
    have e3 : set_time_carry_min ⟨h, m + 1, s, 0⟩ = (⟨h, m + 1, s, 0⟩ : timeStruct) :=
      set_time_carry_min_neg _ (show ¬m + 1 > 60 by omega)
    have e4 : set_time_carry_hours ⟨h, m + 1, s, 0⟩ =
        (⟨Int.tmod h 24, m + 1, s, 0⟩ : timeStruct) := set_time_carry_hours_eval _
    rw [e1, e2, e3, e4, Int.tmod_eq_of_lt hh.1 hh.2]
  · intro hmeq
    subst hmeq
    unfold set_time_increment
    have e1 : set_time_bump 1 ⟨h, 60, s, 0⟩ = (⟨h, 61, s, 0⟩ : timeStruct) :=
      set_time_bump_min _
    have e2 : set_time_carry_sec ⟨h, 61, s, 0⟩ = (⟨h, 61, s, 0⟩ : timeStruct) :=
      set_time_carry_sec_neg _ (show ¬s > 60 by omega)
    have e3 : set_time_carry_min ⟨h, 61, s, 0⟩ =
        (⟨h + 1, Int.tmod 61 60, s, 0⟩ : timeStruct) :=
      set_time_carry_min_pos _ (show (61 : Int) > 60 by norm_num)
    have e4 : set_time_carry_hours ⟨h + 1, Int.tmod 61 60, s, 0⟩ =
        (⟨Int.tmod (h + 1) 24, Int.tmod 61 60, s, 0⟩ : timeStruct) :=
      set_time_carry_hours_eval _
    rw [e1, e2, e3, e4, t6160]
  · unfold set_time_increment
    have e1 : set_time_bump 2 ⟨h, m, s, 0⟩ = (⟨h + 1, m, s, 0⟩ : timeStruct) :=
      set_time_bump_hour _
    have e2 : set_time_carry_sec ⟨h + 1, m, s, 0⟩ = (⟨h + 1, m, s, 0⟩ : timeStruct) :=
      set_time_carry_sec_neg _ (show ¬s > 60 by omega)
    have e3 : set_time_carry_min ⟨h + 1, m, s, 0⟩ = (⟨h + 1, m, s, 0⟩ : timeStruct) :=
      set_time_carry_min_neg _ (show ¬m > 60 by omega)
    have e4 : set_time_carry_hours ⟨h + 1, m, s, 0⟩ =
        (⟨Int.tmod (h + 1) 24, m, s, 0⟩ : timeStruct) := set_time_carry_hours_eval _
    rw [e1, e2, e3, e4]

/-- C6 witness: the amended carry rules applied at cursor = seconds,
value 02:03:04 (a plain increment) and at cursor = minutes, value with
minutes = 60 (a carrying increment). -/
theorem c6_edit_increment_carry_witness :
    set_time_increment 0 ⟨2, 3, 4, 0⟩ = ⟨2, 3, 5, 0⟩ ∧
    set_time_increment 1 ⟨2, 60, 4, 0⟩ = ⟨3, 1, 4, 0⟩ := by
  constructor
  · exact (c6_edit_increment_carry 2 3 4 (by decide) (by decide) (by decide)).1 (by decide)
  · have := (c6_edit_increment_carry 2 60 4 (by decide) (by decide)
      (by decide)).2.2.2.2.1 (by decide)
    simpa using this

/- ----------------------------------------------------------------
Closed counterexample runs of the main loop.
---------------------------------------------------------------- -/

/-- C1 counterexample: a 12-tick run from startup — toggle twice into Timer
mode, enter setting mode (which zeroes the timer), hold func1 for one tick
(setting the countdown to 00:00:01:000), leave setting mode, then press and
release func1 to start the countdown.  On the tick of the func1 release the
countdown borrows a second and leaves `milliseconds = 1000`, outside the
claimed 0–999 range. -/
theorem c1_counterexample :
    (run initialState [togglePress, noInput, togglePress, noInput, setPress, noInput,
      f1Press, noInput, setPress, noInput, f1Press, noInput]).timer.milliseconds = 1000 := by
  decide

/-- C3 counterexample: toggle into Stopwatch mode, start the stopwatch with
func1, then toggle into Timer mode.  After the mode-toggle release event
the stopwatch's running flag is still set: the transition stops nothing. -/
theorem c3_counterexample :
    (run initialState [togglePress, noInput, f1Press, noInput, togglePress,
      noInput]).modeNumber = 2 ∧
    (run initialState [togglePress, noInput, f1Press, noInput, togglePress,
      noInput]).isStopwatchCounting = 1 := by
  decide

/-- C5 counterexample: 00:00:00:001 is a valid Time Value (all fields in
range), yet 125 applications of `count_time` leave seconds at 0 and
subseconds at 1001 — the `== 1000` rollover test is stepped over whenever
subseconds is not a multiple of `TICKRATE`. -/
theorem c5_counterexample :
    count_time_iter 125 { hours := 0, minutes := 0, seconds := 0, milliseconds := 1 } =
      { hours := 0, minutes := 0, seconds := 0, milliseconds := 1001 } := by
  decide

/-- C7 counterexample: press and release the set button in Clock mode; on
the next tick (spent editing the time-of-day) the Time-of-Day accumulator is
not advanced — the tick leaves it exactly as it was, and advancing it with
`count_time` would have changed it. -/
theorem c7_counterexample :
    (loop noInput (run initialState [setPress, noInput])).timeOfDay =
      (run initialState [setPress, noInput]).timeOfDay ∧
    count_time ((run initialState [setPress, noInput]).timeOfDay) ≠
      (run initialState [setPress, noInput]).timeOfDay := by
  decide

/-- C8 counterexample: with subseconds = 1000 (the countdown's post-borrow
value, at which `led_display` is reached on the next countdown tick),
`led_display` does write the LED pins: pin 22 receives bit 0 of seconds = 5,
i.e. HIGH, although the claim allows writes only at subseconds = 0. -/
theorem c8_counterexample :
    led_display { hours := 0, minutes := 0, seconds := 5, milliseconds := 1000 }
      (fun _ => false) 22 = true := by
  decide

/-- C4: the claim is right about the intended latch protocol and the code
breaks it for the clear button in Timer mode.  From a Timer-mode state with
the func2 release latch set (func2 was pressed on an earlier tick) and the
countdown running at 00:00:05:000: on a tick where func2 reads LOW (and
func1 is held), the clear event fires, but the handler resets
`f1ButtonRelease` instead of `f2ButtonRelease` — so after the tick the f2
latch is still 1, the f1 latch has been clobbered to 0, and on the next
all-LOW tick the clear event fires again (and func1's release event is
lost: the timer stays stopped instead of toggling). -/
theorem c4_latch_not_cleared :
    (run_timer f1Press timerPendingClear).f2ButtonRelease = 1 ∧
    (run_timer f1Press timerPendingClear).f1ButtonRelease = 0 ∧
    (run_timer noInput (run_timer f1Press timerPendingClear)).f2ButtonRelease = 1 ∧
    (run_timer noInput (run_timer f1Press timerPendingClear)).isTimerCounting = 0 := by
  decide

/- ----------------------------------------------------------------
C8: what led_display writes, and when.
---------------------------------------------------------------- -/

/-- C8 (amended): `led_display` performs its writes exactly when the Time
Value's subseconds are 0 or 1000 (1000 being the value the countdown borrow
leaves behind); when it writes, each of the low 6 bits of seconds goes to
pins 22–27, each of the low 6 bits of minutes to pins 28–33, each of the
low 5 bits of hours to pins 34–38, and no pin outside 22–38 is touched; at
every other subsecond value it writes no LED pin; for nonnegative values,
`bitRead x i` is bit `i` of `x`. -/
theorem c8_led_display (t : timeStruct) (leds : Nat → Bool) :
    ((t.milliseconds = 0 ∨ t.milliseconds = 1000) →
      (∀ i, i < 6 → led_display t leds (lowestSecPin + i) = bitRead t.seconds i) ∧
      (∀ i, i < 6 → led_display t leds (lowestMinPin + i) = bitRead t.minutes i) ∧
      (∀ i, i < 5 → led_display t leds (lowestHourPin + i) = bitRead t.hours i) ∧
      (∀ p, p < lowestPin ∨ highestPin < p → led_display t leds p = leds p)) ∧
    (¬(t.milliseconds = 0 ∨ t.milliseconds = 1000) → led_display t leds = leds) ∧
    (∀ x : Int, 0 ≤ x → ∀ i, bitRead x i = Nat.testBit x.toNat i) := by
  refine ⟨?_, ?_, fun x hx i => bitRead_eq_testBit x hx i⟩
  · intro hms
    have hld : led_display t leds = led_display_h t 5 (led_display_sm t 6 leds) := by
      unfold led_display
      rw [if_pos hms]
    refine ⟨?_, ?_, ?_, ?_⟩
    · intro i hi
      rw [hld, led_display_h_frame t 5 (le_refl 5) _ _
        (Or.inl (by simp only [lowestSecPin, lowestHourPin, lowestMinPin, lowestPin]; omega))]
      exact led_display_sm_sec t 6 (by omega) leds i hi
    · intro i hi
      rw [hld, led_display_h_frame t 5 (le_refl 5) _ _
        (Or.inl (by simp only [lowestSecPin, lowestHourPin, lowestMinPin, lowestPin]; omega))]
      exact led_display_sm_min t 6 (by omega) leds i hi
    · intro i hi
      rw [hld]
      exact led_display_h_val t 5 (le_refl 5) _ i hi
    · intro p hp
      rw [hld, led_display_h_frame t 5 (le_refl 5) _ _
        (by revert hp
            simp only [lowestPin, highestPin, lowestHourPin, lowestMinPin, lowestSecPin]
            omega)]
      exact led_display_sm_frame t 6 (by omega) leds p
        (by revert hp
            simp only [lowestPin, highestPin, lowestMinPin, lowestSecPin]
            omega)
  · intro hms
    unfold led_display
    rw [if_neg hms]

/-- C8 witness: the amended rendering rule applied at the concrete Time
Value 01:02:03:000 on a dark LED bank — pin 22 receives bit 0 of
seconds = 3, and pin 50 (outside the bank) is untouched. -/
theorem c8_led_display_witness :
    led_display { hours := 1, minutes := 2, seconds := 3, milliseconds := 0 }
      (fun _ => false) 22 = bitRead 3 0 ∧
    led_display { hours := 1, minutes := 2, seconds := 3, milliseconds := 0 }
      (fun _ => false) 50 = false := by
  have h := c8_led_display { hours := 1, minutes := 2, seconds := 3, milliseconds := 0 }
    (fun _ => false)
  exact ⟨(h.1 (Or.inl rfl)).1 0 (by omega), (h.1 (Or.inl rfl)).2.2.2 50 (by right; decide)⟩

/- ----------------------------------------------------------------
C3: the mode-toggle transition.
---------------------------------------------------------------- -/

/-- C3 (amended): on every mode-toggle release event the mode advances
cyclically Clock → Stopwatch → Timer → Clock, the editing flag and the
transient flash counter are cleared, the toggle latch is cleared, and all
LEDs (pins 22–38) are turned off — but the running flags of the stopwatch
and the timer, and the auto-repeat counter `increment`, are left unchanged;
consequently three consecutive mode-toggle events (each a press tick
followed by a release tick) return to the original mode with the running
flags still exactly as they were. -/
theorem c3_mode_toggle (s : State) (ip ir : Input)
    (hip : ip.toggleButton = true) (hir : ir.toggleButton = false)
    (hlatch : s.toggleButtonRelease = 1) :
    (mode_toggle ir s).modeNumber = Int.tmod (s.modeNumber + 1) 3 ∧
    (mode_toggle ir s).isSettingTime = 0 ∧
    (mode_toggle ir s).flash = 0 ∧
    (mode_toggle ir s).toggleButtonRelease = 0 ∧
    (mode_toggle ir s).isStopwatchCounting = s.isStopwatchCounting ∧
    (mode_toggle ir s).isTimerCounting = s.isTimerCounting ∧
    (mode_toggle ir s).increment = s.increment ∧
    (∀ p, lowestPin ≤ p → p ≤ highestPin → (mode_toggle ir s).leds p = false) ∧
    (0 ≤ s.modeNumber → s.modeNumber < 3 →
      (mode_toggle ir (mode_toggle ip (mode_toggle ir (mode_toggle ip
        (mode_toggle ir s))))).modeNumber = s.modeNumber ∧
      (mode_toggle ir (mode_toggle ip (mode_toggle ir (mode_toggle ip
        (mode_toggle ir s))))).isStopwatchCounting = s.isStopwatchCounting ∧
      (mode_toggle ir (mode_toggle ip (mode_toggle ir (mode_toggle ip
        (mode_toggle ir s))))).isTimerCounting = s.isTimerCounting) := by
  have hstep : ∀ s' : State, s'.toggleButtonRelease = 1 →
      mode_toggle ir s' =
        { s' with modeNumber := Int.tmod (s'.modeNumber + 1) 3,
                  leds := write_all_leds false s'.leds,
                  isSettingTime := 0, toggleButtonRelease := 0, flash := 0 } := by
    intro s' h
    unfold mode_toggle
    rw [if_neg (by simp [hir]), if_pos (by exact ⟨hir, h⟩)]
  have hpress : ∀ s' : State, mode_toggle ip s' = { s' with toggleButtonRelease := 1 } := by
    intro s'
    unfold mode_toggle
    rw [if_pos hip]
  have pl1 : ∀ s' : State, (mode_toggle ip s').toggleButtonRelease = 1 := by
    intro s'
    rw [hpress s']
  have pmodeP : ∀ s' : State, (mode_toggle ip s').modeNumber = s'.modeNumber := by
    intro s'
    rw [hpress s']
  have pmodeR : ∀ s' : State, s'.toggleButtonRelease = 1 →
      (mode_toggle ir s').modeNumber = Int.tmod (s'.modeNumber + 1) 3 := by
    intro s' h
    rw [hstep s' h]
  have pswP : ∀ s' : State, (mode_toggle ip s').isStopwatchCounting = s'.isStopwatchCounting := by
    intro s'
    rw [hpress s']
  have pswR : ∀ s' : State, s'.toggleButtonRelease = 1 →
      (mode_toggle ir s').isStopwatchCounting = s'.isStopwatchCounting := by
    intro s' h
    rw [hstep s' h]
  have ptmP : ∀ s' : State, (mode_toggle ip s').isTimerCounting = s'.isTimerCounting := by
    intro s'
    rw [hpress s']
  have ptmR : ∀ s' : State, s'.toggleButtonRelease = 1 →
      (mode_toggle ir s').isTimerCounting = s'.isTimerCounting := by
    intro s' h
    rw [hstep s' h]
  refine ⟨by rw [hstep s hlatch], by rw [hstep s hlatch], by rw [hstep s hlatch],
    by rw [hstep s hlatch], by rw [hstep s hlatch], by rw [hstep s hlatch],
    by rw [hstep s hlatch], ?_, ?_⟩
  · intro p h1 h2
    rw [hstep s hlatch]
    exact write_all_leds_in false s.leds p h1 h2
  · intro hm0 hm3
    refine ⟨?_, ?_, ?_⟩
    · rw [pmodeR _ (pl1 _), pmodeP, pmodeR _ (pl1 _), pmodeP, pmodeR _ hlatch]
      have hcases : s.modeNumber = 0 ∨ s.modeNumber = 1 ∨ s.modeNumber = 2 := by omega
      rcases hcases with h | h | h <;> rw [h] <;> decide
    · rw [pswR _ (pl1 _), pswP, pswR _ (pl1 _), pswP, pswR _ hlatch]
    · rw [ptmR _ (pl1 _), ptmP, ptmR _ (pl1 _), ptmP, ptmR _ hlatch]

/-- C3 witness: the amended mode-toggle behavior at a concrete state —
pending toggle release in Clock mode with the stopwatch running — advances
the mode to Stopwatch and leaves the running flag set. -/
theorem c3_mode_toggle_witness :
    (mode_toggle noInput clockPendingToggle).modeNumber = 1 ∧
    (mode_toggle noInput clockPendingToggle).isStopwatchCounting = 1 := by
  have h := c3_mode_toggle clockPendingToggle togglePress noInput rfl rfl rfl
  refine ⟨?_, ?_⟩
  · rw [h.1]
    decide
  · rw [h.2.2.2.2.1]
    decide

/- ----------------------------------------------------------------
count_time evaluation and invariant preservation.
---------------------------------------------------------------- -/

theorem tmod8 (a : Int) (ha : 0 ≤ a) : Int.tmod a 8 = a % 8 :=
  Int.tmod_eq_emod ha (by norm_num)

theorem tmod24 (a : Int) (ha : 0 ≤ a) : Int.tmod a 24 = a % 24 :=
  Int.tmod_eq_emod ha (by norm_num)

theorem count_time_ms_eval (t : timeStruct) :
    count_time_ms t = { t with milliseconds := t.milliseconds + 8 } := rfl

theorem count_time_sec_pos (t : timeStruct) (h : t.milliseconds = 1000) :
    count_time_sec t = { t with seconds := t.seconds + 1, milliseconds := 0 } := by
  unfold count_time_sec
  rw [if_pos h]

theorem count_time_sec_neg (t : timeStruct) (h : ¬t.milliseconds = 1000) :
    count_time_sec t = t := by
  unfold count_time_sec
  rw [if_neg h]

theorem count_time_min_pos (t : timeStruct) (h : t.seconds = 60) :
    count_time_min t = { t with minutes := t.minutes + 1, seconds := 0 } := by
  unfold count_time_min
  rw [if_pos h]

theorem count_time_min_neg (t : timeStruct) (h : ¬t.seconds = 60) :
    count_time_min t = t := by
  unfold count_time_min
  rw [if_neg h]

theorem count_time_hour_pos (t : timeStruct) (h : t.minutes = 60) :
    count_time_hour t = { t with hours := t.hours + 1, minutes := 0 } := by
  unfold count_time_hour
  rw [if_pos h]

theorem count_time_hour_neg (t : timeStruct) (h : ¬t.minutes = 60) :
    count_time_hour t = t := by
  unfold count_time_hour
  rw [if_neg h]

theorem count_time_no_roll (t : timeStruct) (h1 : ¬t.milliseconds + 8 = 1000)
    (h2 : ¬t.seconds = 60) (h3 : ¬t.minutes = 60) :
    count_time t =
      { t with milliseconds := t.milliseconds + 8, hours := Int.tmod t.hours 24 } := by
  unfold count_time
  rw [count_time_ms_eval]
  have e2 : count_time_sec { t with milliseconds := t.milliseconds + 8 } =
      { t with milliseconds := t.milliseconds + 8 } := count_time_sec_neg _ h1
  have e3 : count_time_min { t with milliseconds := t.milliseconds + 8 } =
      { t with milliseconds := t.milliseconds + 8 } := count_time_min_neg _ h2
  have e4 : count_time_hour { t with milliseconds := t.milliseconds + 8 } =
      { t with milliseconds := t.milliseconds + 8 } := count_time_hour_neg _ h3
  rw [e2, e3, e4]
  rfl

theorem count_time_roll_sec (t : timeStruct) (h1 : t.milliseconds + 8 = 1000)
    (h2 : ¬t.seconds + 1 = 60) (h3 : ¬t.minutes = 60) :
    count_time t =
      { t with milliseconds := 0, seconds := t.seconds + 1,
               hours := Int.tmod t.hours 24 } := by
  unfold count_time
  rw [count_time_ms_eval]
  have e2 : count_time_sec { t with milliseconds := t.milliseconds + 8 } =
      { t with seconds := t.seconds + 1, milliseconds := 0 } := count_time_sec_pos _ h1
  have e3 : count_time_min { t with seconds := t.seconds + 1, milliseconds := 0 } =
      { t with seconds := t.seconds + 1, milliseconds := 0 } := count_time_min_neg _ h2
  have e4 : count_time_hour { t with seconds := t.seconds + 1, milliseconds := 0 } =
      { t with seconds := t.seconds + 1, milliseconds := 0 } := count_time_hour_neg _ h3
  rw [e2, e3, e4]
  rfl

theorem count_time_roll_min (t : timeStruct) (h1 : t.milliseconds + 8 = 1000)
    (h2 : t.seconds + 1 = 60) (h3 : ¬t.minutes + 1 = 60) :
    count_time t =
      { t with milliseconds := 0, seconds := 0, minutes := t.minutes + 1,
               hours := Int.tmod t.hours 24 } := by
  unfold count_time
  rw [count_time_ms_eval]
  have e2 : count_time_sec { t with milliseconds := t.milliseconds + 8 } =
      { t with seconds := t.seconds + 1, milliseconds := 0 } := count_time_sec_pos _ h1
  have e3 : count_time_min { t with seconds := t.seconds + 1, milliseconds := 0 } =
      { t with minutes := t.minutes + 1, seconds := 0, milliseconds := 0 } :=
    count_time_min_pos _ h2
  have e4 : count_time_hour { t with minutes := t.minutes + 1, seconds := 0, milliseconds := 0 } =
      { t with minutes := t.minutes + 1, seconds := 0, milliseconds := 0 } :=
    count_time_hour_neg _ h3
  rw [e2, e3, e4]
  rfl

theorem count_time_roll_hour (t : timeStruct) (h1 : t.milliseconds + 8 = 1000)
    (h2 : t.seconds + 1 = 60) (h3 : t.minutes + 1 = 60) :
    count_time t =
      { t with milliseconds := 0, seconds := 0, minutes := 0,
               hours := Int.tmod (t.hours + 1) 24 } := by
  unfold count_time
  rw [count_time_ms_eval]
  have e2 : count_time_sec { t with milliseconds := t.milliseconds + 8 } =
      { t with seconds := t.seconds + 1, milliseconds := 0 } := count_time_sec_pos _ h1
  have e3 : count_time_min { t with seconds := t.seconds + 1, milliseconds := 0 } =
      { t with minutes := t.minutes + 1, seconds := 0, milliseconds := 0 } :=
    count_time_min_pos _ h2
  have e4 : count_time_hour { t with minutes := t.minutes + 1, seconds := 0, milliseconds := 0 } =
      { t with hours := t.hours + 1, minutes := 0, seconds := 0, milliseconds := 0 } :=
    count_time_hour_pos _ h3
  rw [e2, e3, e4]
  rfl

theorem count_time_hours_eq (t : timeStruct) :
    (count_time t).hours = Int.tmod t.hours 24 ∨
    (count_time t).hours = Int.tmod (t.hours + 1) 24 := by
  unfold count_time count_time_wrap count_time_hour count_time_min count_time_sec
    count_time_ms
  repeat' split
  all_goals first | exact Or.inl rfl | exact Or.inr rfl

theorem count_time_hoursInv (t : timeStruct) (h : 0 ≤ t.hours) :
    hoursInv (count_time t) := by
  unfold hoursInv
  rcases count_time_hours_eq t with he | he <;> rw [he] <;>
    exact tmod_bounds _ 24 (by omega) (by norm_num)

theorem timeInv_mk (h m s ms : Int) (hh0 : 0 ≤ h) (hh1 : h < 24) (hm0 : 0 ≤ m)
    (hm1 : m < 60) (hs0 : 0 ≤ s) (hs1 : s < 60) (hms0 : 0 ≤ ms) (hms1 : ms < 1000)
    (h8 : ms % 8 = 0) : timeInv ⟨h, m, s, ms⟩ := by
  refine ⟨hh0, hh1, hm0, hm1, hs0, hs1, hms0, hms1, ?_⟩
  show Int.tmod ms 8 = 0
  rw [tmod8 _ hms0]
  exact h8

theorem count_time_timeInv (t : timeStruct) (h : timeInv t) : timeInv (count_time t) := by
  obtain ⟨hh0, hh1, hm0, hm1, hs0, hs1, hms0, hms1, hms8⟩ := h
  rw [tmod8 _ hms0] at hms8
  by_cases h1 : t.milliseconds + 8 = 1000
  · by_cases h2 : t.seconds + 1 = 60
    · by_cases h3 : t.minutes + 1 = 60
      · rw [count_time_roll_hour t h1 h2 h3]
        exact timeInv_mk _ _ _ _ (tmod_bounds _ 24 (by omega) (by norm_num)).1
          (tmod_bounds _ 24 (by omega) (by norm_num)).2 (by norm_num) (by norm_num)
          (by norm_num) (by norm_num) (by norm_num) (by norm_num) (by decide)
      · rw [count_time_roll_min t h1 h2 h3]
        exact timeInv_mk _ _ _ _ (tmod_bounds _ 24 (by omega) (by norm_num)).1
          (tmod_bounds _ 24 (by omega) (by norm_num)).2 (by omega) (by omega)
          (by norm_num) (by norm_num) (by norm_num) (by norm_num) (by decide)
    · rw [count_time_roll_sec t h1 h2 (by omega)]
      exact timeInv_mk _ _ _ _ (tmod_bounds _ 24 (by omega) (by norm_num)).1
        (tmod_bounds _ 24 (by omega) (by norm_num)).2 (by omega) (by omega)
        (by omega) (by omega) (by norm_num) (by norm_num) (by decide)
  · rw [count_time_no_roll t h1 (by omega) (by omega)]
    exact timeInv_mk _ _ _ _ (tmod_bounds _ 24 (by omega) (by norm_num)).1
      (tmod_bounds _ 24 (by omega) (by norm_num)).2 (by omega) (by omega)
      (by omega) (by omega) (by omega) (by omega) (by omega)

theorem timeInv_hoursInv (t : timeStruct) (h : timeInv t) : hoursInv t := ⟨h.1, h.2.1⟩

theorem retreat_hours (t : timeStruct) : (retreat t).hours = t.hours := by
  unfold retreat retreat_borrow_hour retreat_borrow_min retreat_borrow_sec retreat_ms
  repeat' split
  all_goals rfl

/- ----------------------------------------------------------------
set_time: preservation of the State fields it does not touch, and of
the hours range of the edited struct.
---------------------------------------------------------------- -/

theorem set_time_f3_state_frame (inp : Input) (p : State × timeStruct) :
    (set_time_f3 inp p).1.timeOfDay = p.1.timeOfDay ∧
    (set_time_f3 inp p).1.stopWatchTime = p.1.stopWatchTime ∧
    (set_time_f3 inp p).1.timer = p.1.timer ∧
    (set_time_f3 inp p).1.modeNumber = p.1.modeNumber ∧
    (set_time_f3 inp p).1.isSettingTime = p.1.isSettingTime := by
  unfold set_time_f3
  repeat' split
  all_goals exact ⟨rfl, rfl, rfl, rfl, rfl⟩

theorem set_time_f2_state_frame (inp : Input) (p : State × timeStruct) :
    (set_time_f2 inp p).1.timeOfDay = p.1.timeOfDay ∧
    (set_time_f2 inp p).1.stopWatchTime = p.1.stopWatchTime ∧
    (set_time_f2 inp p).1.timer = p.1.timer ∧
    (set_time_f2 inp p).1.modeNumber = p.1.modeNumber ∧
    (set_time_f2 inp p).1.isSettingTime = p.1.isSettingTime := by
  unfold set_time_f2
  repeat' split
  all_goals exact ⟨rfl, rfl, rfl, rfl, rfl⟩

theorem set_time_f1_state_frame (inp : Input) (p : State × timeStruct) :
    (set_time_f1 inp p).1.timeOfDay = p.1.timeOfDay ∧
    (set_time_f1 inp p).1.stopWatchTime = p.1.stopWatchTime ∧
    (set_time_f1 inp p).1.timer = p.1.timer ∧
    (set_time_f1 inp p).1.modeNumber = p.1.modeNumber ∧
    (set_time_f1 inp p).1.isSettingTime = p.1.isSettingTime := by
  unfold set_time_f1
  repeat' split
  all_goals exact ⟨rfl, rfl, rfl, rfl, rfl⟩

theorem set_time_state_frame (inp : Input) (s : State) (t : timeStruct) :
    (set_time inp s t).1.timeOfDay = s.timeOfDay ∧
    (set_time inp s t).1.stopWatchTime = s.stopWatchTime ∧
    (set_time inp s t).1.timer = s.timer ∧
    (set_time inp s t).1.modeNumber = s.modeNumber ∧
    (set_time inp s t).1.isSettingTime = s.isSettingTime := by
  unfold set_time
  have h3 := set_time_f3_state_frame inp (s, { t with milliseconds := 0 })
  have h2 := set_time_f2_state_frame inp (set_time_f3 inp (s, { t with milliseconds := 0 }))
  have h1 := set_time_f1_state_frame inp
    (set_time_f2 inp (set_time_f3 inp (s, { t with milliseconds := 0 })))
  exact ⟨h1.1.trans (h2.1.trans h3.1),
    h1.2.1.trans (h2.2.1.trans h3.2.1),
    h1.2.2.1.trans (h2.2.2.1.trans h3.2.2.1),
    h1.2.2.2.1.trans (h2.2.2.2.1.trans h3.2.2.2.1),
    h1.2.2.2.2.trans (h2.2.2.2.2.trans h3.2.2.2.2)⟩

theorem set_time_clear_unit_hoursInv (seg : Int) (t : timeStruct) (h : hoursInv t) :
    hoursInv (set_time_clear_unit seg t) := by
  unfold set_time_clear_unit
  repeat' split
  all_goals first | exact h | exact ⟨by norm_num, by norm_num⟩

theorem set_time_pre_carry_hours (seg : Int) (t : timeStruct) :
    (set_time_carry_min (set_time_carry_sec (set_time_bump seg t))).hours = t.hours ∨
    (set_time_carry_min (set_time_carry_sec (set_time_bump seg t))).hours = t.hours + 1 ∨
    (set_time_carry_min (set_time_carry_sec (set_time_bump seg t))).hours = t.hours + 1 + 1 := by
  unfold set_time_carry_min set_time_carry_sec set_time_bump
  repeat' split
  all_goals first | exact Or.inl rfl | exact Or.inr (Or.inl rfl) | exact Or.inr (Or.inr rfl)

theorem set_time_increment_hoursInv (seg : Int) (t : timeStruct) (h : 0 ≤ t.hours) :
    hoursInv (set_time_increment seg t) := by
  unfold hoursInv
  have he : (set_time_increment seg t).hours =
      Int.tmod (set_time_carry_min (set_time_carry_sec (set_time_bump seg t))).hours 24 := rfl
  rw [he]
  rcases set_time_pre_carry_hours seg t with hc | hc | hc <;> rw [hc] <;>
    exact tmod_bounds _ 24 (by omega) (by norm_num)

theorem set_time_f3_snd_eq (inp : Input) (p : State × timeStruct) :
    (set_time_f3 inp p).2 = p.2 := set_time_f3_snd inp p

theorem set_time_f2_snd_cases (inp : Input) (p : State × timeStruct) :
    (set_time_f2 inp p).2 = p.2 ∨
    (set_time_f2 inp p).2 = set_time_clear_unit p.1.segment p.2 := by
  unfold set_time_f2
  repeat' split
  all_goals first | exact Or.inl rfl | exact Or.inr rfl

theorem set_time_f1_snd_cases (inp : Input) (p : State × timeStruct) :
    (set_time_f1 inp p).2 = p.2 ∨
    (set_time_f1 inp p).2 = set_time_increment p.1.segment p.2 := by
  unfold set_time_f1
  repeat' split
  all_goals first | exact Or.inl rfl | exact Or.inr rfl

theorem set_time_t_hoursInv (inp : Input) (s : State) (t : timeStruct) (h : hoursInv t) :
    hoursInv ((set_time inp s t).2) := by
  unfold set_time
  have h0 : hoursInv ((s, { t with milliseconds := 0 }).2 : timeStruct) := h
  have hA : hoursInv ((set_time_f3 inp (s, { t with milliseconds := 0 })).2) := by
    rw [set_time_f3_snd_eq]
    exact h0
  have hB : hoursInv ((set_time_f2 inp (set_time_f3 inp
      (s, { t with milliseconds := 0 }))).2) := by
    rcases set_time_f2_snd_cases inp (set_time_f3 inp (s, { t with milliseconds := 0 }))
      with hc | hc
    · rw [hc]
      exact hA
    · rw [hc]
      exact set_time_clear_unit_hoursInv _ _ hA
  rcases set_time_f1_snd_cases inp (set_time_f2 inp (set_time_f3 inp
      (s, { t with milliseconds := 0 }))) with hc | hc
  · rw [hc]
    exact hB
  · rw [hc]
    exact set_time_increment_hoursInv _ _ hB.1

/- ----------------------------------------------------------------
C5: 125 ticks advance a whole second.
---------------------------------------------------------------- -/

theorem count_time_iter_stable (h m s : Int) (k : Nat) (hk : k ≤ 124)
    (hh : 0 ≤ h ∧ h < 24) (hm : 0 ≤ m ∧ m < 60) (hs : 0 ≤ s ∧ s < 60) :
    count_time_iter k ⟨h, m, s, 0⟩ = ⟨h, m, s, 8 * (k : Int)⟩ := by
  induction k with
  | zero => norm_num [count_time_iter]
  | succ k ih =>
      have hstep : count_time_iter (k + 1) ⟨h, m, s, 0⟩ =
          count_time (count_time_iter k ⟨h, m, s, 0⟩) := rfl
      rw [hstep, ih (by omega)]
      have hcc : count_time ⟨h, m, s, 8 * (k : Int)⟩ =
          ⟨Int.tmod h 24, m, s, 8 * (k : Int) + 8⟩ :=
        count_time_no_roll _ (show ¬8 * (k : Int) + 8 = 1000 by omega)
          (show ¬s = 60 by omega) (show ¬m = 60 by omega)
      rw [hcc, Int.tmod_eq_of_lt hh.1 hh.2,
        show (8 : Int) * (k : Int) + 8 = 8 * ((k + 1 : Nat) : Int) by push_cast; ring]

/-- C5 (amended): for every valid Time Value at a whole-second boundary
(subseconds = 0), applying `count_time` 1000/TICKRATE = 125 times in
sequence increases seconds by exactly 1 — with the usual carries into
minutes and hours, the hour wrapping modulo 24 — and leaves subseconds at
0.  (For subseconds not a multiple of TICKRATE the rollover `== 1000` test
never fires and the claim fails, see the counterexample.) -/
theorem c5_advance_whole_second (h m s : Int) (hh : 0 ≤ h ∧ h < 24)
    (hm : 0 ≤ m ∧ m < 60) (hs : 0 ≤ s ∧ s < 60) :
    count_time_iter 125 ⟨h, m, s, 0⟩ =
      if s < 59 then ⟨h, m, s + 1, 0⟩
      else if m < 59 then ⟨h, m + 1, 0, 0⟩
      else ⟨Int.tmod (h + 1) 24, 0, 0, 0⟩ := by
  have h124 := count_time_iter_stable h m s 124 (le_refl 124) hh hm hs
  norm_num at h124
  have hstep : count_time_iter 125 ⟨h, m, s, 0⟩ =
      count_time (count_time_iter 124 ⟨h, m, s, 0⟩) := rfl
  rw [hstep, h124]
  by_cases hs59 : s = 59
  · subst hs59
    by_cases hm59 : m = 59
    · subst hm59
      have hcc : count_time ⟨h, 59, 59, 992⟩ = ⟨Int.tmod (h + 1) 24, 0, 0, 0⟩ :=
        count_time_roll_hour _ (show (992 : Int) + 8 = 1000 by norm_num)
          (show (59 : Int) + 1 = 60 by norm_num) (show (59 : Int) + 1 = 60 by norm_num)
      rw [hcc, if_neg (show ¬(59 : Int) < 59 by norm_num),
        if_neg (show ¬(59 : Int) < 59 by norm_num)]
    · have hcc : count_time ⟨h, m, 59, 992⟩ = ⟨Int.tmod h 24, m + 1, 0, 0⟩ :=
        count_time_roll_min _ (show (992 : Int) + 8 = 1000 by norm_num)
          (show (59 : Int) + 1 = 60 by norm_num) (show ¬m + 1 = 60 by omega)
      rw [hcc, Int.tmod_eq_of_lt hh.1 hh.2, if_neg (show ¬(59 : Int) < 59 by norm_num),
        if_pos (show m < 59 by omega)]
  · have hcc : count_time ⟨h, m, s, 992⟩ = ⟨Int.tmod h 24, m, s + 1, 0⟩ :=
      count_time_roll_sec _ (show (992 : Int) + 8 = 1000 by norm_num)
        (show ¬s + 1 = 60 by omega) (show ¬m = 60 by omega)
    rw [hcc, Int.tmod_eq_of_lt hh.1 hh.2, if_pos (show s < 59 by omega)]

/-- C5 witness: 125 ticks from 00:00:00:000 end at 00:00:01:000. -/
theorem c5_advance_whole_second_witness :
    count_time_iter 125 ⟨0, 0, 0, 0⟩ = ⟨0, 0, 1, 0⟩ := by
  have h := c5_advance_whole_second 0 0 0 (by norm_num) (by norm_num) (by norm_num)
  rw [if_pos (by norm_num)] at h
  exact h

/- ----------------------------------------------------------------
Frame lemmas: which State fields each block leaves unchanged.
---------------------------------------------------------------- -/

theorem stopwatch_f1_frame (inp : Input) (s : State) :
    (stopwatch_f1 inp s).timeOfDay = s.timeOfDay ∧
    (stopwatch_f1 inp s).stopWatchTime = s.stopWatchTime ∧
    (stopwatch_f1 inp s).timer = s.timer ∧
    (stopwatch_f1 inp s).modeNumber = s.modeNumber ∧
    (stopwatch_f1 inp s).isSettingTime = s.isSettingTime := by
  unfold stopwatch_f1
  repeat' split
  all_goals exact ⟨rfl, rfl, rfl, rfl, rfl⟩

theorem stopwatch_f2_frame (inp : Input) (s : State) :
    (stopwatch_f2 inp s).timeOfDay = s.timeOfDay ∧
    (stopwatch_f2 inp s).timer = s.timer ∧
    (stopwatch_f2 inp s).modeNumber = s.modeNumber ∧
    (stopwatch_f2 inp s).isSettingTime = s.isSettingTime := by
  unfold stopwatch_f2
  repeat' split
  all_goals exact ⟨rfl, rfl, rfl, rfl⟩

theorem stopwatch_f2_sw_cases (inp : Input) (s : State) :
    (stopwatch_f2 inp s).stopWatchTime = s.stopWatchTime ∨
    (stopwatch_f2 inp s).stopWatchTime = timeZero := by
  unfold stopwatch_f2
  repeat' split
  all_goals first | exact Or.inl rfl | exact Or.inr rfl

theorem stopwatch_count_frame (s : State) :
    (stopwatch_count s).timeOfDay = s.timeOfDay ∧
    (stopwatch_count s).timer = s.timer ∧
    (stopwatch_count s).modeNumber = s.modeNumber ∧
    (stopwatch_count s).isSettingTime = s.isSettingTime := by
  unfold stopwatch_count
  repeat' split
  all_goals exact ⟨rfl, rfl, rfl, rfl⟩

theorem stopwatch_count_sw_cases (s : State) :
    (stopwatch_count s).stopWatchTime = s.stopWatchTime ∨
    (stopwatch_count s).stopWatchTime = count_time s.stopWatchTime := by
  unfold stopwatch_count
  repeat' split
  all_goals first | exact Or.inl rfl | exact Or.inr rfl

theorem run_stopwatch_frame (inp : Input) (s : State) :
    (run_stopwatch inp s).timeOfDay = s.timeOfDay ∧
    (run_stopwatch inp s).timer = s.timer ∧
    (run_stopwatch inp s).modeNumber = s.modeNumber ∧
    (run_stopwatch inp s).isSettingTime = s.isSettingTime := by
  unfold run_stopwatch
  have h1 := stopwatch_f1_frame inp s
  have h2 := stopwatch_f2_frame inp (stopwatch_f1 inp s)
  have h3 := stopwatch_count_frame (stopwatch_f2 inp (stopwatch_f1 inp s))
  exact ⟨h3.1.trans (h2.1.trans h1.1), h3.2.1.trans (h2.2.1.trans h1.2.2.1),
    h3.2.2.1.trans (h2.2.2.1.trans h1.2.2.2.1), h3.2.2.2.trans (h2.2.2.2.trans h1.2.2.2.2)⟩

theorem run_stopwatch_sw_timeInv (inp : Input) (s : State)
    (h : timeInv s.stopWatchTime) : timeInv ((run_stopwatch inp s).stopWatchTime) := by
  unfold run_stopwatch
  have h1 : timeInv ((stopwatch_f1 inp s).stopWatchTime) := by
    rw [(stopwatch_f1_frame inp s).2.1]
    exact h
  have h2 : timeInv ((stopwatch_f2 inp (stopwatch_f1 inp s)).stopWatchTime) := by
    rcases stopwatch_f2_sw_cases inp (stopwatch_f1 inp s) with hc | hc <;> rw [hc]
    · exact h1
    · decide
  rcases stopwatch_count_sw_cases (stopwatch_f2 inp (stopwatch_f1 inp s)) with hc | hc <;>
    rw [hc]
  · exact h2
  · exact count_time_timeInv _ h2

theorem timer_f1_frame (inp : Input) (s : State) :
    (timer_f1 inp s).timeOfDay = s.timeOfDay ∧
    (timer_f1 inp s).stopWatchTime = s.stopWatchTime ∧
    (timer_f1 inp s).timer = s.timer ∧
    (timer_f1 inp s).modeNumber = s.modeNumber ∧
    (timer_f1 inp s).isSettingTime = s.isSettingTime := by
  unfold timer_f1
  repeat' split
  all_goals exact ⟨rfl, rfl, rfl, rfl, rfl⟩

theorem timer_f2_frame (inp : Input) (s : State) :
    (timer_f2 inp s).timeOfDay = s.timeOfDay ∧
    (timer_f2 inp s).stopWatchTime = s.stopWatchTime ∧
    (timer_f2 inp s).modeNumber = s.modeNumber ∧
    (timer_f2 inp s).isSettingTime = s.isSettingTime := by
  unfold timer_f2
  repeat' split
  all_goals exact ⟨rfl, rfl, rfl, rfl⟩

theorem timer_f2_timer_cases (inp : Input) (s : State) :
    (timer_f2 inp s).timer = s.timer ∨ (timer_f2 inp s).timer = timeZero := by
  unfold timer_f2
  repeat' split
  all_goals first | exact Or.inl rfl | exact Or.inr rfl

theorem timer_buttons_frame (inp : Input) (s : State) :
    (timer_buttons inp s).timeOfDay = s.timeOfDay ∧
    (timer_buttons inp s).stopWatchTime = s.stopWatchTime ∧
    (timer_buttons inp s).modeNumber = s.modeNumber ∧
    (timer_buttons inp s).isSettingTime = s.isSettingTime := by
  unfold timer_buttons
  split
  · have h1 := timer_f1_frame inp s
    have h2 := timer_f2_frame inp (timer_f1 inp s)
    exact ⟨h2.1.trans h1.1, h2.2.1.trans h1.2.1, h2.2.2.1.trans h1.2.2.2.1,
      h2.2.2.2.trans h1.2.2.2.2⟩
  · exact ⟨rfl, rfl, rfl, rfl⟩

theorem timer_buttons_timer_hoursInv (inp : Input) (s : State) (h : hoursInv s.timer) :
    hoursInv ((timer_buttons inp s).timer) := by
  unfold timer_buttons
  split
  · rcases timer_f2_timer_cases inp (timer_f1 inp s) with hc | hc <;> rw [hc]
    · rw [(timer_f1_frame inp s).2.2.1]
      exact h
    · decide
  · exact h

theorem timer_body_frame (inp : Input) (s : State) :
    (timer_body inp s).timeOfDay = s.timeOfDay ∧
    (timer_body inp s).stopWatchTime = s.stopWatchTime ∧
    (timer_body inp s).modeNumber = s.modeNumber ∧
    (timer_body inp s).isSettingTime = s.isSettingTime := by
  unfold timer_body
  have hf := set_time_state_frame inp s s.timer
  repeat' split
  all_goals first
    | exact ⟨rfl, rfl, rfl, rfl⟩
    | exact ⟨hf.1, hf.2.1, hf.2.2.2.1, hf.2.2.2.2⟩

theorem timer_body_timer_hoursInv (inp : Input) (s : State) (h : hoursInv s.timer) :
    hoursInv ((timer_body inp s).timer) := by
  unfold timer_body
  split
  · exact set_time_t_hoursInv inp s s.timer h
  · split
    · repeat' split
      all_goals exact h
    · split
      · show hoursInv (retreat s.timer)
        unfold hoursInv
        rw [retreat_hours]
        exact h
      · exact h

theorem run_timer_frame (inp : Input) (s : State) :
    (run_timer inp s).timeOfDay = s.timeOfDay ∧
    (run_timer inp s).stopWatchTime = s.stopWatchTime ∧
    (run_timer inp s).modeNumber = s.modeNumber ∧
    (run_timer inp s).isSettingTime = s.isSettingTime := by
  unfold run_timer
  have h1 := timer_buttons_frame inp s
  have h2 := timer_body_frame inp (timer_buttons inp s)
  exact ⟨h2.1.trans h1.1, h2.2.1.trans h1.2.1, h2.2.2.1.trans h1.2.2.1,
    h2.2.2.2.trans h1.2.2.2⟩

theorem run_timer_timer_hoursInv (inp : Input) (s : State) (h : hoursInv s.timer) :
    hoursInv ((run_timer inp s).timer) := by
  unfold run_timer
  exact timer_body_timer_hoursInv inp _ (timer_buttons_timer_hoursInv inp s h)

theorem hsb_frame (inp : Input) (s : State) :
    (handle_set_button inp s).timeOfDay = s.timeOfDay ∧
    (handle_set_button inp s).stopWatchTime = s.stopWatchTime ∧
    (handle_set_button inp s).modeNumber = s.modeNumber := by
  unfold handle_set_button enter_exit_setting
  repeat' split
  all_goals exact ⟨rfl, rfl, rfl⟩

theorem hsb_timer_hoursInv (inp : Input) (s : State) (h : hoursInv s.timer) :
    hoursInv ((handle_set_button inp s).timer) := by
  unfold handle_set_button enter_exit_setting
  repeat' split
  all_goals first | exact h | exact (show hoursInv timeZero by decide)

theorem hsb_SInv (inp : Input) (s : State) (h : s.isSettingTime = 1 → s.modeNumber ≠ 1) :
    (handle_set_button inp s).isSettingTime = 1 →
    (handle_set_button inp s).modeNumber ≠ 1 := by
  unfold handle_set_button
  split
  · exact h
  · split
    · unfold enter_exit_setting
      split
      · rename_i hc
        split
        · intro _
          exact hc.2
        · intro _
          exact hc.2
      · intro h1
        exact absurd h1 (show ¬(0 : Int) = 1 by decide)
    · exact h

theorem tick_frame (inp : Input) (s : State) :
    (tick_time_of_day inp s).stopWatchTime = s.stopWatchTime ∧
    (tick_time_of_day inp s).timer = s.timer ∧
    (tick_time_of_day inp s).modeNumber = s.modeNumber ∧
    (tick_time_of_day inp s).isSettingTime = s.isSettingTime := by
  unfold tick_time_of_day
  have hf := set_time_state_frame inp s s.timeOfDay
  split
  · exact ⟨rfl, rfl, rfl, rfl⟩
  · exact ⟨hf.2.1, hf.2.2.1, hf.2.2.2.1, hf.2.2.2.2⟩

theorem tick_tod_hoursInv (inp : Input) (s : State) (h : hoursInv s.timeOfDay) :
    hoursInv ((tick_time_of_day inp s).timeOfDay) := by
  unfold tick_time_of_day
  split
  · exact count_time_hoursInv _ h.1
  · exact set_time_t_hoursInv inp s s.timeOfDay h

theorem tick_SInv (inp : Input) (s : State) (h : s.isSettingTime = 1 → s.modeNumber ≠ 1) :
    (tick_time_of_day inp s).isSettingTime = 1 →
    (tick_time_of_day inp s).modeNumber ≠ 1 := by
  intro h1
  have h1' : s.isSettingTime = 1 := by
    rw [← (tick_frame inp s).2.2.2]
    exact h1
  rw [(tick_frame inp s).2.2.1]
  exact h h1'

theorem mode_toggle_frame (inp : Input) (s : State) :
    (mode_toggle inp s).timeOfDay = s.timeOfDay ∧
    (mode_toggle inp s).stopWatchTime = s.stopWatchTime ∧
    (mode_toggle inp s).timer = s.timer := by
  unfold mode_toggle
  repeat' split
  all_goals exact ⟨rfl, rfl, rfl⟩

theorem mode_toggle_SInv (inp : Input) (s : State)
    (h : s.isSettingTime = 1 → s.modeNumber ≠ 1) :
    (mode_toggle inp s).isSettingTime = 1 → (mode_toggle inp s).modeNumber ≠ 1 := by
  unfold mode_toggle
  split
  · exact h
  · split
    · intro h1
      exact absurd h1 (show ¬(0 : Int) = 1 by decide)
    · exact h

theorem mode_dispatch_tod (inp : Input) (s : State) :
    (mode_dispatch inp s).timeOfDay = s.timeOfDay := by
  unfold mode_dispatch
  split
  · rfl
  · split
    · exact (run_stopwatch_frame inp s).1
    · split
      · exact (run_timer_frame inp s).1
      · rfl

theorem mode_dispatch_SInv (inp : Input) (s : State)
    (h : s.isSettingTime = 1 → s.modeNumber ≠ 1) :
    (mode_dispatch inp s).isSettingTime = 1 → (mode_dispatch inp s).modeNumber ≠ 1 := by
  unfold mode_dispatch
  split
  · exact h
  · split
    · intro h1
      have h1' : s.isSettingTime = 1 := by
        rw [← (run_stopwatch_frame inp s).2.2.2]
        exact h1
      rw [(run_stopwatch_frame inp s).2.2.1]
      exact h h1'
    · split
      · intro h1
        have h1' : s.isSettingTime = 1 := by
          rw [← (run_timer_frame inp s).2.2.2]
          exact h1
        rw [(run_timer_frame inp s).2.2.1]
        exact h h1'
      · exact h

theorem mode_dispatch_GInv (inp : Input) (s : State) (h1 : hoursInv s.timeOfDay)
    (h2 : hoursInv s.timer) (h3 : timeInv s.stopWatchTime) :
    hoursInv ((mode_dispatch inp s).timeOfDay) ∧ hoursInv ((mode_dispatch inp s).timer) ∧
    timeInv ((mode_dispatch inp s).stopWatchTime) := by
  unfold mode_dispatch
  split
  · exact ⟨h1, h2, h3⟩
  · split
    · refine ⟨?_, ?_, ?_⟩
      · rw [(run_stopwatch_frame inp s).1]
        exact h1
      · rw [(run_stopwatch_frame inp s).2.1]
        exact h2
      · exact run_stopwatch_sw_timeInv inp s h3
    · split
      · refine ⟨?_, ?_, ?_⟩
        · rw [(run_timer_frame inp s).1]
          exact h1
        · exact run_timer_timer_hoursInv inp s h2
        · rw [(run_timer_frame inp s).2.1]
          exact h3
      · exact ⟨h1, h2, h3⟩

theorem loop_GInv (inp : Input) (s : State) (h1 : hoursInv s.timeOfDay)
    (h2 : hoursInv s.timer) (h3 : timeInv s.stopWatchTime) :
    hoursInv ((loop inp s).timeOfDay) ∧ hoursInv ((loop inp s).timer) ∧
    timeInv ((loop inp s).stopWatchTime) := by
  unfold loop
  have ha1 : hoursInv ((handle_set_button inp s).timeOfDay) := by
    rw [(hsb_frame inp s).1]
    exact h1
  have ha2 : hoursInv ((handle_set_button inp s).timer) := hsb_timer_hoursInv inp s h2
  have ha3 : timeInv ((handle_set_button inp s).stopWatchTime) := by
    rw [(hsb_frame inp s).2.1]
    exact h3
  have hb1 := tick_tod_hoursInv inp (handle_set_button inp s) ha1
  have hb2 : hoursInv ((tick_time_of_day inp (handle_set_button inp s)).timer) := by
    rw [(tick_frame inp (handle_set_button inp s)).2.1]
    exact ha2
  have hb3 : timeInv ((tick_time_of_day inp (handle_set_button inp s)).stopWatchTime) := by
    rw [(tick_frame inp (handle_set_button inp s)).1]
    exact ha3
  have hc1 : hoursInv ((mode_toggle inp (tick_time_of_day inp
      (handle_set_button inp s))).timeOfDay) := by
    rw [(mode_toggle_frame inp (tick_time_of_day inp (handle_set_button inp s))).1]
    exact hb1
  have hc2 : hoursInv ((mode_toggle inp (tick_time_of_day inp
      (handle_set_button inp s))).timer) := by
    rw [(mode_toggle_frame inp (tick_time_of_day inp (handle_set_button inp s))).2.2]
    exact hb2
  have hc3 : timeInv ((mode_toggle inp (tick_time_of_day inp
      (handle_set_button inp s))).stopWatchTime) := by
    rw [(mode_toggle_frame inp (tick_time_of_day inp (handle_set_button inp s))).2.1]
    exact hb3
  exact mode_dispatch_GInv inp _ hc1 hc2 hc3

theorem loop_SInv (inp : Input) (s : State)
    (h : s.isSettingTime = 1 → s.modeNumber ≠ 1) :
    (loop inp s).isSettingTime = 1 → (loop inp s).modeNumber ≠ 1 := by
  unfold loop
  exact mode_dispatch_SInv inp _ (mode_toggle_SInv inp _ (tick_SInv inp _
    (hsb_SInv inp s h)))

theorem run_GInv (l : List Input) (s : State) (h1 : hoursInv s.timeOfDay)
    (h2 : hoursInv s.timer) (h3 : timeInv s.stopWatchTime) :
    hoursInv ((run s l).timeOfDay) ∧ hoursInv ((run s l).timer) ∧
    timeInv ((run s l).stopWatchTime) := by
  induction l generalizing s with
  | nil => exact ⟨h1, h2, h3⟩
  | cons inp rest ih =>
      have h := loop_GInv inp s h1 h2 h3
      exact ih (loop inp s) h.1 h.2.1 h.2.2

theorem run_SInv (l : List Input) (s : State)
    (h : s.isSettingTime = 1 → s.modeNumber ≠ 1) :
    (run s l).isSettingTime = 1 → (run s l).modeNumber ≠ 1 := by
  induction l generalizing s with
  | nil => exact h
  | cons inp rest ih => exact ih (loop inp s) (loop_SInv inp s h)

/- ----------------------------------------------------------------
The claim theorems built on the invariants.
---------------------------------------------------------------- -/

/-- C9: in every state reachable from startup, the editing sub-state is
never active while Stopwatch mode is displayed: `isSettingTime = 1` implies
`modeNumber ≠ 1`.  Entering editing is guarded on `modeNumber != 1`, and
the mode-toggle transition always clears `isSettingTime`. -/
theorem c9_never_editing_in_stopwatch (l : List Input)
    (h : (run initialState l).isSettingTime = 1) :
    (run initialState l).modeNumber ≠ 1 :=
  run_SInv l initialState (fun h0 => absurd h0 (by decide)) h

/-- C9 witness: after pressing and releasing the set button at startup the
system is editing, and the mode is indeed not Stopwatch. -/
theorem c9_never_editing_in_stopwatch_witness :
    (run initialState [setPress, noInput]).isSettingTime = 1 ∧
    (run initialState [setPress, noInput]).modeNumber ≠ 1 :=
  ⟨by decide, c9_never_editing_in_stopwatch [setPress, noInput] (by decide)⟩

/-- C1 (amended): after each complete tick of the main loop starting from
the all-zero initial state, all three Time Values keep hours in 0–23, and
the stopwatch Time Value keeps the full normalization invariant (minutes
0–59, seconds 0–59, subseconds 0–999 and a multiple of the 8 ms tick).
The time-of-day and countdown Time Values do not always satisfy the full
invariant: the editing increment can leave seconds or minutes at 60, and
the countdown borrow sets subseconds to 1000 (see the counterexample) and
can drive minutes negative. -/
theorem c1_invariant_after_each_tick (l : List Input) :
    hoursInv ((run initialState l).timeOfDay) ∧
    hoursInv ((run initialState l).stopWatchTime) ∧
    hoursInv ((run initialState l).timer) ∧
    timeInv ((run initialState l).stopWatchTime) := by
  have h := run_GInv l initialState (by decide) (by decide) (by decide)
  exact ⟨h.1, timeInv_hoursInv _ h.2.2, h.2.1, h.2.2⟩

/-- C7 (amended): on every tick on which the system is not editing in
Clock mode (after the set-button handling), the Time-of-Day accumulator is
advanced by exactly one `count_time` tick increment, whatever the displayed
mode; on ticks spent editing in Clock mode it is routed to `set_time`
instead and is not advanced (see the counterexample). -/
theorem c7_time_of_day_advances (inp : Input) (s : State)
    (h : (handle_set_button inp s).isSettingTime ≠ 1 ∨
         (handle_set_button inp s).modeNumber ≠ 0) :
    (loop inp s).timeOfDay = count_time s.timeOfDay := by
  unfold loop
  have e1 : tick_time_of_day inp (handle_set_button inp s) =
      { handle_set_button inp s with
          timeOfDay := count_time ((handle_set_button inp s).timeOfDay) } := by
    unfold tick_time_of_day
    rw [if_pos h]
  rw [mode_dispatch_tod, (mode_toggle_frame inp (tick_time_of_day inp
    (handle_set_button inp s))).1, e1]
  show count_time ((handle_set_button inp s).timeOfDay) = count_time s.timeOfDay
  rw [(hsb_frame inp s).1]

/-- C7 witness: one all-buttons-LOW tick from startup advances the
time-of-day by one 8 ms increment. -/
theorem c7_time_of_day_advances_witness :
    (loop noInput initialState).timeOfDay = count_time initialState.timeOfDay :=
  c7_time_of_day_advances noInput initialState (Or.inl (by decide))
